import Mathlib

/-!
Verification development for the fantasy-football data pipeline
(`src/python-api/main.py` and `src/scripts/nfl_data_extractor.py`).

Tables are shallowly embedded row-major: a `Table` is a column-name list
plus a list of rows, each row an association list from column name to cell.
A numeric cell (`NVal`) is a rational, `+Inf`, `-Inf`, or `NaN`,
mirroring IEEE float semantics for the operations the pipeline uses
(pandas/numpy elementwise arithmetic over float64).  A text cell (`SVal`)
is a string, a missing value (pandas `NaN` in an object column), or the
numeric zero that `fillna(0)` writes into an object column.
-/

/-- A numeric cell: finite rational, positive/negative infinity, or NaN. -/
inductive NVal where
  | fin (q : ℚ)
  | pinf
  | ninf
  | na
  deriving DecidableEq, Repr

/-- A text cell: a string, a missing value, or the `0` that `fillna(0)`
writes into a non-numeric (object-dtype) column. -/
inductive SVal where
  | txt (s : String)
  | na
  | zeroFill
  deriving DecidableEq, Repr

/-- A cell of a table is numeric or textual (pandas column dtypes:
numeric columns hold `NVal` cells, object columns hold `SVal` cells). -/
inductive Cell where
  | numc (v : NVal)
  | strc (v : SVal)
  deriving DecidableEq, Repr

abbrev ColName := String

/-- A row: association list from column name to cell, in column order. -/
abbrev Row := List (ColName × Cell)

/-- A data frame: column names plus rows.  A table with no columns has no
cell entries in any row, so `rows.isEmpty` captures pandas `df.empty` for
every table that arises in this pipeline. -/
structure Table where
  cols : List ColName
  rows : List Row
  deriving DecidableEq, Repr

/-- Column lookup in a row (`row[col]`). -/
def Row.get (r : Row) (c : ColName) : Option Cell :=
  (r.find? (fun p => p.1 = c)).map (fun p => p.2)

/-! ## Kernel-computable rational arithmetic

`Rat.add`/`Rat.mul`/`Rat.div` are `@[irreducible]` in this toolchain, so
concrete evaluations would get stuck.  The pipeline's arithmetic is
therefore phrased through `mkRat`, which reduces, and related to the
ordinary field operations by the lemmas below. -/

def qadd (a b : ℚ) : ℚ :=
  mkRat (a.num * (b.den : Int) + b.num * (a.den : Int)) (a.den * b.den)

def qmul100 (a : ℚ) : ℚ := mkRat (a.num * 100) a.den

def qdiv (a b : ℚ) : ℚ :=
  mkRat (a.num * (b.den : Int) * (if b.num < 0 then -1 else 1)) (a.den * b.num.natAbs)

def qlt (a b : ℚ) : Bool := decide (a.num * (b.den : Int) < b.num * (a.den : Int))

def qofNat (n : Nat) : ℚ := mkRat n 1

theorem qadd_eq (a b : ℚ) : qadd a b = a + b := by
  unfold qadd
  rw [Rat.mkRat_eq_div]
  push_cast
  conv_rhs => rw [← Rat.num_div_den a, ← Rat.num_div_den b]
  have ha : (a.den : ℚ) ≠ 0 := by exact_mod_cast a.den_nz
  have hb : (b.den : ℚ) ≠ 0 := by exact_mod_cast b.den_nz
  field_simp

theorem qmul100_eq (a : ℚ) : qmul100 a = a * 100 := by
  unfold qmul100
  rw [Rat.mkRat_eq_div]
  push_cast
  conv_rhs => rw [← Rat.num_div_den a]
  have ha : (a.den : ℚ) ≠ 0 := by exact_mod_cast a.den_nz
  field_simp

theorem qlt_iff (a b : ℚ) : qlt a b = true ↔ a < b := by
  unfold qlt
  rw [decide_eq_true_iff]
  have ha : (0:ℚ) < (a.den : ℚ) := by exact_mod_cast a.pos
  have hb : (0:ℚ) < (b.den : ℚ) := by exact_mod_cast b.pos
  have h2 : a < b ↔ (a.num : ℚ)/(a.den : ℚ) < (b.num : ℚ)/(b.den : ℚ) := by
    rw [Rat.num_div_den, Rat.num_div_den]
  rw [h2, div_lt_div_iff₀ ha hb]
  exact ⟨fun h => by exact_mod_cast h, fun h => by exact_mod_cast h⟩

theorem qofNat_eq (n : Nat) : qofNat n = (n : ℚ) := by
  unfold qofNat
  rw [Rat.mkRat_eq_div]
  simp

theorem qdiv_eq (a b : ℚ) (hb : b ≠ 0) : qdiv a b = a / b := by
  unfold qdiv
  rw [Rat.mkRat_eq_div]
  have hbn : b.num ≠ 0 := Rat.num_ne_zero.mpr hb
  have ha : (a.den : ℚ) ≠ 0 := by exact_mod_cast a.den_nz
  have hbq : (b.num : ℚ) ≠ 0 := by exact_mod_cast hbn
  rcases lt_or_gt_of_ne hbn with hneg | hpos
  · rw [if_pos hneg]
    push_cast
    have habs : ((b.num.natAbs : ℚ)) = -(b.num : ℚ) := by
      rw [Int.cast_natAbs, abs_of_neg hneg]
      push_cast
      ring
    rw [habs]
    conv_rhs => rw [← Rat.num_div_den a, ← Rat.num_div_den b]
    field_simp
  · rw [if_neg (by omega)]
    push_cast
    have habs : ((b.num.natAbs : ℚ)) = (b.num : ℚ) := by
      rw [Int.cast_natAbs, abs_of_nonneg (le_of_lt hpos)]
    rw [habs]
    conv_rhs => rw [← Rat.num_div_den a, ← Rat.num_div_den b]
    field_simp

/-- IEEE-style addition on numeric cells (numpy elementwise `+`). -/
def NVal.add : NVal → NVal → NVal
  | .na, _ => .na
  | _, .na => .na
  | .fin a, .fin b => .fin (qadd a b)
  | .pinf, .ninf => .na
  | .ninf, .pinf => .na
  | .pinf, _ => .pinf
  | _, .pinf => .pinf
  | .ninf, _ => .ninf
  | _, .ninf => .ninf

/-- IEEE-style division on numeric cells (numpy elementwise `/`):
a nonzero finite value divided by zero is a signed infinity and `0/0` is
NaN.  (ℚ has no signed zero; no claim divides by an infinite or negative
denominator.) -/
def NVal.div : NVal → NVal → NVal
  | .na, _ => .na
  | _, .na => .na
  | .fin a, .fin b =>
      if b ≠ 0 then .fin (qdiv a b)
      else if qlt 0 a then .pinf else if qlt a 0 then .ninf else .na
  | .fin _, .pinf => .fin 0
  | .fin _, .ninf => .fin 0
  | .pinf, .fin b => if qlt b 0 then .ninf else .pinf
  | .ninf, .fin b => if qlt b 0 then .pinf else .ninf
  | .pinf, .pinf => .na
  | .pinf, .ninf => .na
  | .ninf, .pinf => .na
  | .ninf, .ninf => .na

/-- Multiplication by the scalar 100 (used for percentage ratios). -/
def NVal.mul100 : NVal → NVal
  | .na => .na
  | .pinf => .pinf
  | .ninf => .ninf
  | .fin a => .fin (qmul100 a)

/-- `v > c` as numpy/python evaluates it on a float (NaN compares false). -/
def NVal.gt : NVal → ℚ → Bool
  | .fin a, c => qlt c a
  | .pinf, _ => true
  | .ninf, _ => false
  | .na, _ => false

/-- `v < c` as numpy/python evaluates it on a float (NaN compares false). -/
def NVal.lt : NVal → ℚ → Bool
  | .fin a, c => qlt a c
  | .pinf, _ => false
  | .ninf, _ => true
  | .na, _ => false

/-- `pd.fillna(0)` applied to a single numeric value: NaN becomes 0. -/
def NVal.fill0 : NVal → NVal
  | .na => .fin 0
  | v => v

/-- pandas column/`groupby` sum: NaN entries are skipped, an empty (or
all-NaN) column sums to 0; infinities follow IEEE addition. -/
def skipSum (l : List NVal) : NVal :=
  (l.filter (fun v => v ≠ NVal.na)).foldl NVal.add (.fin 0)

/-- The numeric values appearing in column `c` of the given rows. -/
def colVals (rows : List Row) (c : ColName) : List NVal :=
  rows.filterMap (fun r =>
    match r.get c with
    | some (.numc v) => some v
    | _ => none)

/-! ## Sanitizer (`sanitize_dataframe`, `src/python-api/main.py` 47-85) -/

/-- `df.replace([np.inf, -np.inf], np.nan)` on one cell. -/
def replaceInfCell : Cell → Cell
  | .numc .pinf => .numc .na
  | .numc .ninf => .numc .na
  | c => c

/-- `df.fillna(0)` on one cell.  pandas fills missing values in every
column, so a missing value in an object column becomes the number 0. -/
def fillnaCell : Cell → Cell
  | .numc .na => .numc (.fin 0)
  | .strc .na => .strc .zeroFill
  | c => c

/-- One cell through `replace([inf,-inf], nan).fillna(0)`. -/
def sanitizeCell (c : Cell) : Cell := fillnaCell (replaceInfCell c)

def sanitizeRow (r : Row) : Row := r.map (fun p => (p.1, sanitizeCell p.2))

/-- Is this cell an infinity in a numeric column? -/
def cellIsInf : Cell → Bool
  | .numc .pinf => true
  | .numc .ninf => true
  | _ => false

/-- Is this cell a NaN in a numeric column?  (`numeric_df.isna()`: missing
values in object columns are outside `select_dtypes(include=[np.number])`
and are not counted.) -/
def cellIsNumNa : Cell → Bool
  | .numc .na => true
  | _ => false

/-- `int(np.isinf(numeric_df).sum().sum())`: per-row counts, then summed. -/
def Table.infCount (t : Table) : Nat :=
  (t.rows.map (fun r => (r.filter (fun p => cellIsInf p.2)).length)).foldl (· + ·) 0

/-- `int(numeric_df.isna().sum().sum())`: per-row counts, then summed. -/
def Table.nanCount (t : Table) : Nat :=
  (t.rows.map (fun r => (r.filter (fun p => cellIsNumNa p.2)).length)).foldl (· + ·) 0

/-- `sanitize_dataframe` (`src/python-api/main.py` 47-85): on a non-empty
frame, count infinities and numeric NaNs, then return
`df.replace([np.inf, -np.inf], np.nan).fillna(0)` with those counts. -/
def sanitize_dataframe (df : Table) : Table × Nat × Nat :=
  if df.rows.isEmpty then (df, 0, 0)
  else ({ cols := df.cols, rows := df.rows.map sanitizeRow },
        df.infCount, df.nanCount)

/-! Independent specification-side counters (flatten all cells, count). -/

/-- The number of `±Inf` values among all numeric cells of the table. -/
def specInfCount (t : Table) : Nat :=
  (t.rows.flatten).countP (fun p => cellIsInf p.2)

/-- The number of `NaN` values among all numeric cells of the table. -/
def specNanCount (t : Table) : Nat :=
  (t.rows.flatten).countP (fun p => cellIsNumNa p.2)

/-- Every numeric cell of the table is finite (not `±Inf`, not `NaN`). -/
def Table.allNumFinite (t : Table) : Bool :=
  t.rows.all (fun r => r.all (fun p =>
    match p.2 with
    | .numc (.fin _) => true
    | .numc _ => false
    | .strc _ => true))

/-- No cell of the table is a missing value in a non-numeric column. -/
def Table.noStrNa (t : Table) : Bool :=
  t.rows.all (fun r => r.all (fun p => p.2 ≠ Cell.strc SVal.na))

section SanitizeLemmas

lemma sanitizeCell_finite (c : Cell) :
    cellIsInf (sanitizeCell c) = false ∧ cellIsNumNa (sanitizeCell c) = false := by
  cases c with
  | numc v => cases v <;> simp [sanitizeCell, replaceInfCell, fillnaCell, cellIsInf, cellIsNumNa]
  | strc v => cases v <;> simp [sanitizeCell, replaceInfCell, fillnaCell, cellIsInf, cellIsNumNa]

lemma sanitizeCell_clean (c : Cell) (h1 : cellIsInf c = false) (h2 : cellIsNumNa c = false)
    (h3 : c ≠ Cell.strc SVal.na) : sanitizeCell c = c := by
  cases c with
  | numc v => cases v <;> simp_all [sanitizeCell, replaceInfCell, fillnaCell, cellIsInf, cellIsNumNa]
  | strc v => cases v <;> simp_all [sanitizeCell, replaceInfCell, fillnaCell]

lemma foldl_add_counts (l : List Nat) (n : Nat) :
    l.foldl (· + ·) n = n + l.sum := by
  induction l generalizing n with
  | nil => simp
  | cons a t ih => simp [List.foldl_cons, ih, List.sum_cons]; ring

lemma infCount_eq_spec (t : Table) : t.infCount = specInfCount t := by
  simp only [Table.infCount, specInfCount, foldl_add_counts, Nat.zero_add,
    List.countP_flatten, List.map_map]
  congr 1
  exact List.map_congr_left fun r _ => by simp [List.countP_eq_length_filter]

lemma nanCount_eq_spec (t : Table) : t.nanCount = specNanCount t := by
  simp only [Table.nanCount, specNanCount, foldl_add_counts, Nat.zero_add,
    List.countP_flatten, List.map_map]
  congr 1
  exact List.map_congr_left fun r _ => by simp [List.countP_eq_length_filter]

end SanitizeLemmas

def cell_numOk (c : Cell) : Bool :=
  match c with
  | .numc (.fin _) => true
  | .numc _ => false
  | .strc _ => true

lemma sanitizeCell_numOk (c : Cell) : cell_numOk (sanitizeCell c) = true := by
  cases c with
  | numc v => cases v <;> rfl
  | strc v => cases v <;> rfl

lemma numOk_split (c : Cell) (h : cell_numOk c = true) :
    cellIsInf c = false ∧ cellIsNumNa c = false := by
  cases c with
  | numc v => cases v <;> simp_all [cell_numOk, cellIsInf, cellIsNumNa]
  | strc v => simp [cellIsInf, cellIsNumNa]

lemma sanitizeCell_ne_strNa (c : Cell) : sanitizeCell c ≠ Cell.strc SVal.na := by
  cases c with
  | numc v => cases v <;> simp [sanitizeCell, replaceInfCell, fillnaCell]
  | strc v => cases v <;> simp [sanitizeCell, replaceInfCell, fillnaCell]

lemma allNumFinite_iff (t : Table) :
    t.allNumFinite = true ↔ ∀ r ∈ t.rows, ∀ p ∈ r, cell_numOk p.2 = true := by
  simp only [Table.allNumFinite, List.all_eq_true, cell_numOk]

lemma noStrNa_iff (t : Table) :
    t.noStrNa = true ↔ ∀ r ∈ t.rows, ∀ p ∈ r, p.2 ≠ Cell.strc SVal.na := by
  simp only [Table.noStrNa, List.all_eq_true, ne_eq, decide_not]
  constructor
  · intro h r hr p hp
    simpa using h r hr p hp
  · intro h r hr p hp
    simpa using h r hr p hp

/-- On a table whose numeric cells are all finite and whose text columns
hold no missing value, `sanitize_dataframe` returns the table unchanged
with zero counts. -/
lemma map_self_of_eq {a : Type _} (f : a -> a) :
    forall (l : List a), (forall x, x ∈ l -> f x = x) -> l.map f = l
  | [], _ => rfl
  | x :: t, h => by
      simp only [List.map_cons]
      rw [h x (List.mem_cons_self x t),
        map_self_of_eq f t (fun y hy => h y (List.mem_cons_of_mem x hy))]

lemma sanitize_of_clean (df : Table) (h1 : df.allNumFinite = true)
    (h2 : df.noStrNa = true) : sanitize_dataframe df = (df, 0, 0) := by
  rw [allNumFinite_iff] at h1
  rw [noStrNa_iff] at h2
  unfold sanitize_dataframe
  split
  · rfl
  · have hrows : df.rows.map sanitizeRow = df.rows := by
      apply map_self_of_eq
      intro r hr
      unfold sanitizeRow
      apply map_self_of_eq
      intro p hp
      have hok := numOk_split p.2 (h1 r hr p hp)
      rw [sanitizeCell_clean p.2 hok.1 hok.2 (h2 r hr p hp)]
    have hinf : df.infCount = 0 := by
      rw [infCount_eq_spec, specInfCount, List.countP_eq_zero]
      intro p hp
      obtain ⟨r, hr, hpr⟩ := List.mem_flatten.mp hp
      exact (numOk_split p.2 (h1 r hr p hpr)).1 ▸ by simp
    have hnan : df.nanCount = 0 := by
      rw [nanCount_eq_spec, specNanCount, List.countP_eq_zero]
      intro p hp
      obtain ⟨r, hr, hpr⟩ := List.mem_flatten.mp hp
      exact (numOk_split p.2 (h1 r hr p hpr)).2 ▸ by simp
    rw [hrows, hinf, hnan]

lemma sanitize_fst_clean (df : Table) :
    ((sanitize_dataframe df).1).allNumFinite = true ∧
    ((sanitize_dataframe df).1).noStrNa = true := by
  unfold sanitize_dataframe
  split
  · next h =>
    have hrows : df.rows = [] := by simpa [List.isEmpty_iff] using h
    constructor
    · rw [allNumFinite_iff]; simp [hrows]
    · rw [noStrNa_iff]; simp [hrows]
  · constructor
    · rw [allNumFinite_iff]
      intro r hr p hp
      obtain ⟨r₀, _, rfl⟩ := List.mem_map.mp hr
      obtain ⟨p₀, _, rfl⟩ := List.mem_map.mp hp
      exact sanitizeCell_numOk p₀.2
    · rw [noStrNa_iff]
      intro r hr p hp
      obtain ⟨r₀, _, rfl⟩ := List.mem_map.mp hr
      obtain ⟨p₀, _, rfl⟩ := List.mem_map.mp hp
      exact sanitizeCell_ne_strNa p₀.2

/-- The sanitize scenario table from the spec: a single numeric column
`value` with values `[1.0, +Inf, NaN, -Inf, 5.0]`. -/
def sanitizeScenarioIn : Table :=
  ⟨["value"],
   [[("value", .numc (.fin 1))], [("value", .numc .pinf)],
    [("value", .numc .na)], [("value", .numc .ninf)],
    [("value", .numc (.fin 5))]]⟩

/-- The sanitize scenario output: `[1.0, 0.0, 0.0, 0.0, 5.0]`. -/
def sanitizeScenarioOut : Table :=
  ⟨["value"],
   [[("value", .numc (.fin 1))], [("value", .numc (.fin 0))],
    [("value", .numc (.fin 0))], [("value", .numc (.fin 0))],
    [("value", .numc (.fin 5))]]⟩

/-- Claim C2: for every input table, including tables containing positive
infinity, negative infinity, or NaN in numeric cells, the table returned
by `sanitize_dataframe` contains no numeric cell equal to Infinity or
NaN. -/
theorem C2_sanitize_output_finite (df : Table) :
    ((sanitize_dataframe df).1).allNumFinite = true :=
  (sanitize_fst_clean df).1

/-- Claim C3: `sanitize_dataframe` returns `inf_count` equal to the number
of `±Inf` values and `nan_count` equal to the number of `NaN` values in
numeric columns before replacement (infinities are not double-counted as
NaN); on the column `[1.0, +Inf, NaN, -Inf, 5.0]` it returns
`[1.0, 0.0, 0.0, 0.0, 5.0]` with metrics `inf_count = 2`, `nan_count = 1`. -/
theorem C3_sanitize_metrics :
    (∀ df : Table, (sanitize_dataframe df).2.1 = specInfCount df ∧
        (sanitize_dataframe df).2.2 = specNanCount df) ∧
    sanitize_dataframe sanitizeScenarioIn = (sanitizeScenarioOut, 2, 1) := by
  constructor
  · intro df
    unfold sanitize_dataframe
    split
    · next h =>
      have hrows : df.rows = [] := by simpa [List.isEmpty_iff] using h
      simp [specInfCount, specNanCount, hrows]
    · exact ⟨infCount_eq_spec df, nanCount_eq_spec df⟩
  · decide

/-- A table with no numeric column at all whose single text cell is a
missing value: all numeric values are (vacuously) finite, yet
`fillna(0)` rewrites the missing text cell to the number `0`. -/
def textNaTable : Table := ⟨["name"], [[("name", .strc .na)]]⟩

/-- A clean one-cell numeric table used to instantiate the amended claim. -/
def cleanOneCellTable : Table := ⟨["x"], [[("x", .numc (.fin 3))]]⟩

/-- Claim C9 counterexample: `textNaTable` has every numeric value finite
(it has none), yet `sanitize_dataframe` does not return a table equal to
the input — the missing value in the text column is replaced by `0`.
So Sanitize is not a no-op on every clean-numeric table. -/
theorem C9_counterexample :
    textNaTable.allNumFinite = true ∧
    (sanitize_dataframe textNaTable).1 ≠ textNaTable := by
  constructor
  · decide
  · intro h
    have : (sanitize_dataframe textNaTable).1.rows = textNaTable.rows :=
      congrArg Table.rows h
    simp [sanitize_dataframe, textNaTable, sanitizeRow, sanitizeCell,
      replaceInfCell, fillnaCell] at this

/-- Claim C9 (amended): Sanitize is a no-op — table returned equal to the
input with metrics `{0, 0}` — on every table whose numeric values are all
finite and which has no missing value in any non-numeric column; and
applying Sanitize twice always equals applying it once (idempotence holds
unconditionally). -/
theorem C9_sanitize_noop_amended :
    (∀ df : Table, df.allNumFinite = true → df.noStrNa = true →
        sanitize_dataframe df = (df, 0, 0)) ∧
    (∀ df : Table, sanitize_dataframe (sanitize_dataframe df).1 =
        ((sanitize_dataframe df).1, 0, 0)) := by
  constructor
  · exact sanitize_of_clean
  · intro df
    have h := sanitize_fst_clean df
    have h2 : ((sanitize_dataframe df).1).noStrNa = true := by
      rw [noStrNa_iff]
      intro r hr p hp
      revert hr
      unfold sanitize_dataframe
      split
      · intro hr
        rw [noStrNa_iff] at h
        exact h.2 r (by
          revert hr
          unfold sanitize_dataframe
          intro hr
          simp_all) p hp
      · intro hr
        obtain ⟨r₀, _, rfl⟩ := List.mem_map.mp hr
        obtain ⟨p₀, _, rfl⟩ := List.mem_map.mp hp
        exact sanitizeCell_ne_strNa p₀.2
    exact sanitize_of_clean _ h.1 h.2

/-- Witness for the amended C9: instantiated at a concrete clean table. -/
theorem C9_sanitize_noop_amended_witness :
    cleanOneCellTable.allNumFinite = true ∧
    cleanOneCellTable.noStrNa = true ∧
    sanitize_dataframe cleanOneCellTable = (cleanOneCellTable, 0, 0) :=
  ⟨by decide, by decide,
    C9_sanitize_noop_amended.1 cleanOneCellTable (by decide) (by decide)⟩

/-! ## Grouping (pandas `groupby(...).agg(...)`)

pandas `groupby` drops every row holding a missing value (`NaN`) in any
grouping-key column (`dropna=True`, the default).  Group keys are listed
in first-occurrence order; the pipeline's outputs are row sets whose
order no claim depends on. -/

/-- A grouping key cell counts as usable when the column is present in the
row and its value is not missing. -/
def keyCellOk : Option Cell → Bool
  | some (.numc .na) => false
  | some (.strc .na) => false
  | none => false
  | some _ => true

/-- The tuple of key cells of a row. -/
def keyOf (keys : List ColName) (r : Row) : List (Option Cell) :=
  keys.map r.get

/-- Does the row carry a non-missing value in every grouping column? -/
def validKey (keys : List ColName) (r : Row) : Bool :=
  keys.all (fun c => keyCellOk (r.get c))

/-- First-occurrence deduplication (structurally recursive accumulator). -/
def uniqFirstAux {α : Type _} [DecidableEq α] (seen : List α) : List α → List α
  | [] => []
  | a :: l =>
      if a ∈ seen then uniqFirstAux seen l
      else a :: uniqFirstAux (a :: seen) l

/-- `df.groupby(keys)`: the rows with a usable key, partitioned by key
tuple, keys in first-occurrence order. -/
def groupBy (keys : List ColName) (rows : List Row) :
    List (List (Option Cell) × List Row) :=
  let valid := rows.filter (validKey keys)
  (uniqFirstAux [] (valid.map (keyOf keys))).map
    (fun k => (k, valid.filter (fun r => keyOf keys r = k)))

lemma mem_uniqFirstAux {α : Type _} [DecidableEq α] (seen : List α) (l : List α)
    (a : α) (h : a ∈ uniqFirstAux seen l) : a ∈ l := by
  induction l generalizing seen with
  | nil => simp [uniqFirstAux] at h
  | cons b t ih =>
    by_cases hb : b ∈ seen
    · simp only [uniqFirstAux, if_pos hb] at h
      exact List.mem_cons_of_mem b (ih _ h)
    · simp only [uniqFirstAux, if_neg hb, List.mem_cons] at h
      rcases h with h | h
      · simp [h]
      · exact List.mem_cons_of_mem b (ih _ h)

/-- A row with a missing (or absent) value in some grouping column belongs
to no group: pandas `groupby` excludes it entirely. -/
lemma not_mem_groupBy_of_invalid (keys : List ColName) (rows : List Row)
    (r : Row) (h : validKey keys r = false) :
    ∀ g ∈ groupBy keys rows, r ∉ g.2 := by
  intro g hg hr
  unfold groupBy at hg
  obtain ⟨k, _, rfl⟩ := List.mem_map.mp hg
  have := List.of_mem_filter (List.mem_filter.mp hr).1
  rw [h] at this
  exact Bool.false_ne_true this

/-! ## Season aggregation in the API service
(`extract_nfl_data`, `src/python-api/main.py` 266-287). -/

/-- The statistics the API service sums when aggregating weekly rows. -/
def apiAggStats : List ColName :=
  ["fantasy_points", "fantasy_points_ppr", "passing_yards", "passing_tds",
   "interceptions", "rushing_yards", "rushing_tds", "rushing_attempts",
   "receiving_yards", "receiving_tds", "receptions", "targets"]

/-- The optional grouping columns of the API service, appended to
`player_id` when present in the weekly frame. -/
def apiGroupCandidates : List ColName :=
  ["player_name", "player_display_name", "position", "recent_team",
   "team", "season"]

/-- `groupby` columns actually used by `extract_nfl_data`. -/
def apiGroupCols (df : Table) : List ColName :=
  "player_id" :: apiGroupCandidates.filter (fun c => c ∈ df.cols)

/-- The key-cell part of an aggregated output row. -/
def keyCells (gcols : List ColName) (key : List (Option Cell)) : Row :=
  (gcols.zip key).filterMap (fun p => p.2.map (fun c => (p.1, c)))

/-- One aggregated row of `extract_nfl_data`: the group key followed by
the summed statistics. -/
def apiAggRow (gcols sumCols : List ColName)
    (g : List (Option Cell) × List Row) : Row :=
  keyCells gcols g.1 ++
    sumCols.map (fun c => (c, Cell.numc (skipSum (colVals g.2 c))))

/-- The weekly-to-season aggregation of `extract_nfl_data`
(`src/python-api/main.py` 266-287): group by `player_id` plus the present
candidate columns and sum the present statistics; an empty frame or no
summable column yields an empty frame.  No `games` column is produced. -/
def extract_nfl_data_aggregate (weekly : Table) : Table :=
  let sumCols := apiAggStats.filter (fun c => c ∈ weekly.cols)
  if weekly.rows ≠ [] ∧ sumCols ≠ [] then
    let gcols := apiGroupCols weekly
    ⟨gcols ++ sumCols,
     (groupBy gcols weekly.rows).map (apiAggRow gcols sumCols)⟩
  else ⟨[], []⟩

/-! ## Season aggregation in the extractor script
(`aggregate_weekly_to_season`, `src/scripts/nfl_data_extractor.py` 468-552). -/

/-- Is this cell a missing value (pandas `isna`)? -/
def cellIsNa : Cell → Bool
  | .numc .na => true
  | .strc .na => true
  | _ => false

/-- The extractor's column alias map, applied in order:
`player_display_name → player_name`, `fantasy_pos → position`,
`recent_team → team`, `team_abbr → team`. -/
def extractorColumnMapping : List (ColName × ColName) :=
  [("player_display_name", "player_name"), ("fantasy_pos", "position"),
   ("recent_team", "team"), ("team_abbr", "team")]

def renameRow (old new : ColName) (r : Row) : Row :=
  r.map (fun p => if p.1 = old then (new, p.2) else p)

/-- `df.rename(columns={old: new})`, applied only when `old` is present
and `new` is not already present. -/
def renameOne (old new : ColName) (t : Table) : Table :=
  if old ∈ t.cols ∧ new ∉ t.cols then
    ⟨t.cols.map (fun c => if c = old then new else c),
     t.rows.map (renameRow old new)⟩
  else t

def renameCols (m : List (ColName × ColName)) (t : Table) : Table :=
  m.foldl (fun acc p => renameOne p.1 p.2 acc) t

/-- One roster row projected to `player_id`, `team`, `position`. -/
structure RosterInfo where
  pid : Cell
  team : Cell
  pos : Cell
  deriving DecidableEq, Repr

def rosterProj (rosters : Table) : List RosterInfo :=
  rosters.rows.map (fun r =>
    ⟨(r.get "player_id").getD (.strc .na),
     (r.get "team").getD (.strc .na),
     (r.get "position").getD (.strc .na)⟩)

/-- `drop_duplicates('player_id')`: keep the first row per player id. -/
def dropDupPidAux (seen : List Cell) : List RosterInfo → List RosterInfo
  | [] => []
  | i :: t =>
      if i.pid ∈ seen then dropDupPidAux seen t
      else i :: dropDupPidAux (i.pid :: seen) t

def Row.set (r : Row) (c : ColName) (v : Cell) : Row :=
  r.map (fun p => if p.1 = c then (c, v) else p)

/-- The left merge with roster info
(`nfl_data_extractor.py` 489-496): when the roster frame is non-empty,
project it to `player_id`/`team`/`position` (first row per player), left
merge on `player_id` with suffixes `('', '_roster')`, then backfill
missing `team`/`position` in the weekly data from the roster columns.
Missing frame columns raise a pandas `KeyError`, modelled as `.error`. -/
def mergeRoster (t rosters : Table) : Except String Table :=
  if rosters.rows.isEmpty then .ok t
  else if ¬("player_id" ∈ rosters.cols ∧ "team" ∈ rosters.cols ∧
            "position" ∈ rosters.cols ∧ "player_id" ∈ t.cols) then
    .error "KeyError: merge columns"
  else
    let info := dropDupPidAux [] (rosterProj rosters)
    let hasTeam := "team" ∈ t.cols
    let hasPos := "position" ∈ t.cols
    let teamName := if hasTeam then "team_roster" else "team"
    let posName := if hasPos then "position_roster" else "position"
    let rows1 := t.rows.map (fun r =>
      let entry := info.find? (fun i => i.pid = ((Row.get r "player_id").getD (.strc .na)))
      let tv := match entry with | some i => i.team | none => Cell.strc .na
      let pv := match entry with | some i => i.pos | none => Cell.strc .na
      let r1 : Row := r ++ [(teamName, tv), (posName, pv)]
      let r2 : Row :=
        if hasTeam then
          match Row.get r1 "team" with
          | some d => if cellIsNa d then Row.set r1 "team" tv else r1
          | none => r1
        else r1
      if hasPos then
        match Row.get r2 "position" with
        | some d => if cellIsNa d then Row.set r2 "position" pv else r2
        | none => r2
      else r2)
    .ok ⟨t.cols ++ [teamName, posName], rows1⟩

/-- The extractor's fixed summable-statistics list. -/
def extSumStats : List ColName :=
  ["fantasy_points", "fantasy_points_ppr",
   "passing_yards", "passing_tds", "interceptions", "passing_attempts",
   "completions", "rushing_yards", "rushing_tds", "rushing_attempts",
   "carries", "receiving_yards", "receiving_tds", "receptions", "targets",
   "passing_first_downs", "rushing_first_downs", "receiving_first_downs"]

/-- The extractor's grouping columns: `player_id`, `season`, plus
`player_name`/`position`/`team` when present. -/
def extGroupCols (t : Table) : List ColName :=
  ["player_id", "season"]
    ++ (if "player_name" ∈ t.cols then ["player_name"] else [])
    ++ (if "position" ∈ t.cols then ["position"] else [])
    ++ (if "team" ∈ t.cols then ["team"] else [])

def extSumColsOf (t : Table) : List ColName :=
  extSumStats.filter (fun c => c ∈ t.cols)

/-- Does the row carry a non-missing `week` value?  (`agg` counts the
non-null `week` cells of each group: `agg_dict['week'] = 'count'`.) -/
def weekPresentRow (r : Row) : Bool :=
  match r.get "week" with
  | some c => !cellIsNa c
  | none => false

def weekCount (rows : List Row) : Nat :=
  rows.countP weekPresentRow

/-- The per-game-average columns: `stat_per_game = stat / games`
(no NaN/Inf guard in the source at this point). -/
def extPerGameRow (sumCols : List ColName) (g : List (Option Cell) × List Row) : Row :=
  sumCols.map (fun c =>
    (c ++ "_per_game",
     Cell.numc ((skipSum (colVals g.2 c)).div (.fin (qofNat (weekCount g.2))))))

/-- One guarded efficiency ratio, `(num / den [* 100]).fillna(0)`:
`fillna` repairs the NaN arising from `0/0` but leaves the infinity
arising from `x/0`, `x ≠ 0`, in place. -/
def extRatio (g : List (Option Cell) × List Row) (num den : ColName)
    (pct : Bool) : NVal :=
  let q := (skipSum (colVals g.2 num)).div (skipSum (colVals g.2 den))
  NVal.fill0 (if pct then q.mul100 else q)

/-- The efficiency-ratio columns appended by the extractor, in source
order, each present only when its operand columns are. -/
def extRatioRow (sumCols : List ColName) (g : List (Option Cell) × List Row) : Row :=
  (if "targets" ∈ sumCols ∧ "receptions" ∈ sumCols then
    [("catch_rate", Cell.numc (extRatio g "receptions" "targets" true))] else [])
  ++ (if "passing_attempts" ∈ sumCols ∧ "completions" ∈ sumCols then
    [("completion_rate", Cell.numc (extRatio g "completions" "passing_attempts" true))] else [])
  ++ (if "carries" ∈ sumCols ∧ "rushing_yards" ∈ sumCols then
    [("yards_per_carry", Cell.numc (extRatio g "rushing_yards" "carries" false))]
    else if "rushing_attempts" ∈ sumCols ∧ "rushing_yards" ∈ sumCols then
    [("yards_per_carry", Cell.numc (extRatio g "rushing_yards" "rushing_attempts" false))]
    else [])
  ++ (if "targets" ∈ sumCols ∧ "receiving_yards" ∈ sumCols then
    [("yards_per_target", Cell.numc (extRatio g "receiving_yards" "targets" false))] else [])
  ++ (if "receptions" ∈ sumCols ∧ "receiving_yards" ∈ sumCols then
    [("yards_per_reception", Cell.numc (extRatio g "receiving_yards" "receptions" false))] else [])

def extRatioNames (sumCols : List ColName) : List ColName :=
  (if "targets" ∈ sumCols ∧ "receptions" ∈ sumCols then ["catch_rate"] else [])
  ++ (if "passing_attempts" ∈ sumCols ∧ "completions" ∈ sumCols then ["completion_rate"] else [])
  ++ (if "carries" ∈ sumCols ∧ "rushing_yards" ∈ sumCols then ["yards_per_carry"]
      else if "rushing_attempts" ∈ sumCols ∧ "rushing_yards" ∈ sumCols then ["yards_per_carry"]
      else [])
  ++ (if "targets" ∈ sumCols ∧ "receiving_yards" ∈ sumCols then ["yards_per_target"] else [])
  ++ (if "receptions" ∈ sumCols ∧ "receiving_yards" ∈ sumCols then ["yards_per_reception"] else [])

/-- One aggregated season row before the final `fillna(0)`: group key,
summed statistics, the synthetic `games` count, per-game averages and
efficiency ratios, in source column order. -/
def extAggRowCore (t2 : Table) (g : List (Option Cell) × List Row) : Row :=
  let sumCols := extSumColsOf t2
  keyCells (extGroupCols t2) g.1
    ++ sumCols.map (fun c => (c, Cell.numc (skipSum (colVals g.2 c))))
    ++ [("games", Cell.numc (.fin (qofNat (weekCount g.2))))]
    ++ extPerGameRow sumCols g
    ++ extRatioRow sumCols g

/-- The trailing `aggregated.fillna(0)` before `to_dict('records')`. -/
def fillRow (r : Row) : Row := r.map (fun p => (p.1, fillnaCell p.2))

def extAggRow (t2 : Table) (g : List (Option Cell) × List Row) : Row :=
  fillRow (extAggRowCore t2 g)

/-- `aggregate_weekly_to_season` (`nfl_data_extractor.py` 468-552):
rename alias columns, merge roster info, group by the present key
columns, sum the present summable statistics, count non-null weeks as
`games`, then derive per-game averages and `fillna(0)`-guarded ratios.
A missing `player_id`/`season`/`week` column raises a pandas `KeyError`
at `groupby`/`agg`, modelled as `.error`. -/
def aggregate_weekly_to_season (weekly rosters : Table) : Except String Table :=
  if weekly.rows.isEmpty then .ok ⟨[], []⟩
  else
    match mergeRoster (renameCols extractorColumnMapping weekly) rosters with
    | .error e => .error e
    | .ok t2 =>
      if "player_id" ∈ t2.cols ∧ "season" ∈ t2.cols ∧ "week" ∈ t2.cols then
        let sumCols := extSumColsOf t2
        .ok ⟨extGroupCols t2 ++ sumCols ++ ["games"]
              ++ sumCols.map (fun c => c ++ "_per_game") ++ extRatioNames sumCols,
             (groupBy (extGroupCols t2) t2.rows).map (extAggRow t2)⟩
      else .error "KeyError: groupby columns"

/-- A weekly table with one row: `rushing_yards = 50`,
`rushing_attempts = 0` (and no `carries` column). -/
def c1WeeklyTable : Table :=
  ⟨["player_id", "season", "week", "rushing_yards", "rushing_attempts"],
   [[("player_id", .strc (.txt "P1")), ("season", .numc (.fin 2023)),
     ("week", .numc (.fin 1)), ("rushing_yards", .numc (.fin 50)),
     ("rushing_attempts", .numc (.fin 0))]]⟩

def emptyTable : Table := ⟨[], []⟩

/-- Claim C1 evaluated at the failing input: with `rushing_yards = 50`
and `rushing_attempts = 0`, the Season Aggregator's
`yards_per_carry = (rushing_yards / rushing_attempts).fillna(0)` is
`+Inf`, not `0.0` — `fillna(0)` repairs only the NaN of `0/0`, not the
infinity of `x/0` with `x ≠ 0`, and the final `fillna(0)` leaves it too. -/
theorem C1_zero_denominator_gives_inf :
    (aggregate_weekly_to_season c1WeeklyTable emptyTable).toOption.map
        (fun out => out.rows.map (fun r => Row.get r "yards_per_carry")) =
      some [some (Cell.numc NVal.pinf)] ∧
    Cell.numc NVal.pinf ≠ Cell.numc (NVal.fin 0) := by
  constructor
  · decide
  · decide

/-- A one-row weekly table with `player_id`, `season` and one summable
statistic — a perfectly ordinary schema. -/
def c6ApiWeekly : Table :=
  ⟨["player_id", "season", "fantasy_points"],
   [[("player_id", .strc (.txt "P1")), ("season", .numc (.fin 2023)),
     ("fantasy_points", .numc (.fin 10))]]⟩

/-- Claim C6 counterexample: the API service's season aggregation
(`extract_nfl_data`, `main.py` 266-287) produces a non-empty aggregate
from `c6ApiWeekly`, yet no `games` column and no `games` field in the
produced row — the synthetic count is not produced for every variant and
schema. -/
theorem C6_counterexample :
    (extract_nfl_data_aggregate c6ApiWeekly).rows.length = 1 ∧
    "games" ∉ (extract_nfl_data_aggregate c6ApiWeekly).cols ∧
    ((extract_nfl_data_aggregate c6ApiWeekly).rows.head?.map
      (fun r => Row.get r "games")) = some none := by
  refine ⟨rfl, by decide, rfl⟩

section RowLemmas

lemma find?_append {α : Type _} (p : α → Bool) (xs ys : List α) :
    (xs ++ ys).find? p = ((xs.find? p).or (ys.find? p)) := by
  induction xs with
  | nil => simp
  | cons a t ih =>
    cases h : p a with
    | true => simp [List.find?, h]
    | false => simp [List.find?, h, ih]

lemma Row.get_append_of_not_mem (xs ys : Row) (c : ColName)
    (h : ∀ p ∈ xs, p.1 ≠ c) :
    Row.get (xs ++ ys) c = Row.get ys c := by
  unfold Row.get
  rw [find?_append]
  have : xs.find? (fun p => p.1 = c) = none := by
    rw [List.find?_eq_none]
    intro p hp
    simpa using h p hp
  rw [this, Option.none_or]

lemma Row.get_cons_self (c : ColName) (v : Cell) (r : Row) :
    Row.get ((c, v) :: r) c = some v := by
  simp [Row.get, List.find?]

lemma fillRow_get (r : Row) (c : ColName) :
    Row.get (fillRow r) c = (Row.get r c).map fillnaCell := by
  induction r with
  | nil => rfl
  | cons a t ih =>
    by_cases h : a.1 = c
    · simp [fillRow, Row.get, List.find?, h]
    · simp only [fillRow, List.map_cons] at ih ⊢
      simp [Row.get, List.find?, h] at ih ⊢
      exact ih

lemma keyCells_fst (gcols : List ColName) (k : List (Option Cell))
    (p : ColName × Cell) (h : p ∈ keyCells gcols k) : p.1 ∈ gcols := by
  unfold keyCells at h
  obtain ⟨q, hq, hmap⟩ := List.mem_filterMap.mp h
  have hq1 := (List.of_mem_zip hq).1
  cases hopt : q.2 with
  | none => rw [hopt] at hmap; simp at hmap
  | some cell =>
    rw [hopt] at hmap
    rw [show Option.map (fun c => (q.1, c)) (some cell) = some (q.1, cell) from rfl] at hmap
    injection hmap with h1
    rw [← h1]
    exact hq1

end RowLemmas

section AggLemmas

lemma fst_mem_of_mem_map_pair (f : ColName → Cell) (l : List ColName)
    (p : ColName × Cell) (h : p ∈ l.map (fun c => (c, f c))) : p.1 ∈ l := by
  obtain ⟨c, hc, rfl⟩ := List.mem_map.mp h
  exact hc

lemma extGroupCols_mem (t : Table) (c : ColName) (hc : c ∈ extGroupCols t) :
    c ∈ ["player_id", "season", "player_name", "position", "team"] := by
  unfold extGroupCols at hc
  split_ifs at hc <;> simp_all <;> tauto

lemma extGroupCols_ne_games (t : Table) (c : ColName)
    (hc : c ∈ extGroupCols t) : c ≠ "games" := by
  have h := extGroupCols_mem t c hc
  intro he
  rw [he] at h
  revert h
  decide

lemma extSumColsOf_ne_games (t : Table) (c : ColName)
    (hc : c ∈ extSumColsOf t) : c ≠ "games" := by
  have h := (List.mem_filter.mp hc).1
  intro he
  rw [he] at h
  revert h
  decide

/-- The `games` cell of an aggregated season row: the count of non-null
`week` cells among the group's contributing rows. -/
lemma extAggRow_games (t2 : Table) (g : List (Option Cell) × List Row) :
    Row.get (extAggRow t2 g) "games" =
      some (Cell.numc (.fin (qofNat (weekCount g.2)))) := by
  unfold extAggRow extAggRowCore
  rw [fillRow_get]
  rw [List.append_assoc, List.append_assoc, List.append_assoc]
  rw [Row.get_append_of_not_mem _ _ _
    (fun p hp => extGroupCols_ne_games t2 p.1 (keyCells_fst _ _ p hp))]
  rw [Row.get_append_of_not_mem _ _ _
    (fun p hp => extSumColsOf_ne_games t2 p.1 (fst_mem_of_mem_map_pair _ _ p hp))]
  rw [show ([("games", Cell.numc (.fin (qofNat (weekCount g.2))))] ++
      (extPerGameRow (extSumColsOf t2) g ++ extRatioRow (extSumColsOf t2) g)) =
      ("games", Cell.numc (.fin (qofNat (weekCount g.2)))) ::
      (extPerGameRow (extSumColsOf t2) g ++ extRatioRow (extSumColsOf t2) g) from rfl]
  rw [Row.get_cons_self]
  rfl

lemma aggregate_shape (w ro t2 : Table)
    (h1 : w.rows.isEmpty = false)
    (h2 : mergeRoster (renameCols extractorColumnMapping w) ro = .ok t2)
    (h3 : "player_id" ∈ t2.cols) (h4 : "season" ∈ t2.cols)
    (h5 : "week" ∈ t2.cols) :
    aggregate_weekly_to_season w ro =
      Except.ok ⟨extGroupCols t2 ++ extSumColsOf t2 ++ ["games"]
          ++ (extSumColsOf t2).map (fun c => c ++ "_per_game")
          ++ extRatioNames (extSumColsOf t2),
        (groupBy (extGroupCols t2) t2.rows).map (extAggRow t2)⟩ := by
  unfold aggregate_weekly_to_season
  rw [h2, if_neg (by simp [h1])]
  exact if_pos ⟨h3, h4, h5⟩

end AggLemmas

/-- Claim C6 (amended): the script's `aggregate_weekly_to_season` always
produces a `games` field on every aggregated row, equal to the number of
contributing week-rows with non-null `week` — hence to the group size
whenever no `week` value is missing — provided the processed table has
`player_id`, `season` and `week` columns (a schema without them makes the
pandas `groupby`/`agg` raise instead); the API service's aggregation
(`extract_nfl_data`) never produces a `games` column at all. -/
theorem C6_games_count_amended (w ro t2 : Table)
    (g : List (Option Cell) × List Row) (w2 : Table)
    (h1 : w.rows.isEmpty = false)
    (h2 : mergeRoster (renameCols extractorColumnMapping w) ro = .ok t2)
    (h3 : "player_id" ∈ t2.cols) (h4 : "season" ∈ t2.cols)
    (h5 : "week" ∈ t2.cols)
    (hg : g ∈ groupBy (extGroupCols t2) t2.rows)
    (hw : ∀ r ∈ g.2, weekPresentRow r = true) :
    (∃ out, aggregate_weekly_to_season w ro = Except.ok out ∧
        extAggRow t2 g ∈ out.rows) ∧
    Row.get (extAggRow t2 g) "games" =
      some (Cell.numc (.fin (qofNat g.2.length))) ∧
    "games" ∉ (extract_nfl_data_aggregate w2).cols := by
  refine ⟨⟨_, aggregate_shape w ro t2 h1 h2 h3 h4 h5, ?_⟩, ?_, ?_⟩
  · exact List.mem_map_of_mem (extAggRow t2) hg
  · rw [extAggRow_games]
    have : weekCount g.2 = g.2.length := by
      unfold weekCount
      exact List.countP_eq_length.mpr hw
    rw [this]
  · simp only [extract_nfl_data_aggregate]
    split
    · intro hmem
      rcases List.mem_append.mp hmem with hmem | hmem
      · unfold apiGroupCols at hmem
        rcases List.mem_cons.mp hmem with he | hmem
        · revert he; decide
        · have h9 := (List.mem_filter.mp hmem).1
          revert h9; decide
      · have h9 := (List.mem_filter.mp hmem).1
        revert h9; decide
    · simp

/-- Two week-rows of one player/season, both with a non-null `week`. -/
def c6wWeekly : Table :=
  ⟨["player_id", "season", "week", "targets"],
   [[("player_id", .strc (.txt "P1")), ("season", .numc (.fin 2023)),
     ("week", .numc (.fin 1)), ("targets", .numc (.fin 4))],
    [("player_id", .strc (.txt "P1")), ("season", .numc (.fin 2023)),
     ("week", .numc (.fin 2)), ("targets", .numc (.fin 6))]]⟩

def c6wGroup : List (Option Cell) × List Row :=
  ([some (.strc (.txt "P1")), some (.numc (.fin 2023))], c6wWeekly.rows)

/-- Witness for the amended C6 at a concrete two-week input. -/
theorem C6_games_count_amended_witness :
    (∃ out, aggregate_weekly_to_season c6wWeekly emptyTable = Except.ok out ∧
        extAggRow c6wWeekly c6wGroup ∈ out.rows) ∧
    Row.get (extAggRow c6wWeekly c6wGroup) "games" =
      some (Cell.numc (.fin (qofNat 2))) ∧
    "games" ∉ (extract_nfl_data_aggregate c6ApiWeekly).cols := by
  have h := C6_games_count_amended c6wWeekly emptyTable c6wWeekly c6wGroup
    c6ApiWeekly rfl rfl (by decide) (by decide) (by decide) (by decide)
    (by decide)
  exact ⟨h.1, h.2.1, h.2.2⟩

/-- Claim C10: in both season aggregators, a weekly row holding a missing
value in any grouping-key column actually used for grouping belongs to no
group of the `groupby` — pandas drops it (`dropna=True`), so it
contributes to no aggregated season row. -/
theorem C10_dropna_excludes (w t2 : Table) (r r2 : Row)
    (hv : validKey (apiGroupCols w) r = false)
    (hv2 : validKey (extGroupCols t2) r2 = false) :
    (∀ g ∈ groupBy (apiGroupCols w) w.rows, r ∉ g.2) ∧
    (∀ g2 ∈ groupBy (extGroupCols t2) t2.rows, r2 ∉ g2.2) :=
  ⟨not_mem_groupBy_of_invalid _ _ _ hv, not_mem_groupBy_of_invalid _ _ _ hv2⟩

/-- A row with a missing `season` key next to a fully-keyed row. -/
def c10NaRow : Row :=
  [("player_id", .strc (.txt "P2")), ("season", .numc .na),
   ("fantasy_points", .numc (.fin 3))]

def c10Table : Table :=
  ⟨["player_id", "season", "fantasy_points"],
   [[("player_id", .strc (.txt "P1")), ("season", .numc (.fin 2023)),
     ("fantasy_points", .numc (.fin 10))], c10NaRow]⟩

def c10Group : List (Option Cell) × List Row :=
  ([some (.strc (.txt "P1")), some (.numc (.fin 2023))],
   [[("player_id", .strc (.txt "P1")), ("season", .numc (.fin 2023)),
     ("fantasy_points", .numc (.fin 10))]])

/-- Witness for C10: the NaN-keyed row is in neither variant's group. -/
theorem C10_dropna_excludes_witness :
    validKey (apiGroupCols c10Table) c10NaRow = false ∧
    c10Group ∈ groupBy (apiGroupCols c10Table) c10Table.rows ∧
    c10NaRow ∉ c10Group.2 ∧
    c10Group ∈ groupBy (extGroupCols c10Table) c10Table.rows := by
  have h := C10_dropna_excludes c10Table c10Table c10NaRow c10NaRow
    (by decide) (by decide)
  exact ⟨by decide, by decide, h.1 c10Group (by decide), by decide⟩

/-! ## Team rollups in the API service
(`calculate_team_analytics`, `src/python-api/main.py` 386-487). -/

/-- The numeric value of a row's cell (NaN when absent or non-numeric). -/
def rowNum (r : Row) (c : ColName) : NVal :=
  match Row.get r c with
  | some (.numc v) => v
  | _ => .na

/-- `classify_offense` (`main.py` 474-480) and the extractor's inline
conditional (`nfl_data_extractor.py` 458): thresholds 60 and 40. -/
def classify_offense (v : NVal) : String :=
  if v.gt 60 then "Pass-Heavy" else if v.lt 40 then "Run-Heavy" else "Balanced"

/-- `stat_columns` of `main.py`'s `calculate_team_analytics`. -/
def mainStatColumns : List ColName :=
  ["fantasy_points", "fantasy_points_ppr", "passing_yards", "passing_tds",
   "interceptions", "rushing_yards", "rushing_tds", "rushing_attempts",
   "receiving_yards", "receiving_tds", "receptions", "targets"]

/-- Team-column detection: `team`, else `recent_team`, else none. -/
def mainTeamCol (df : Table) : Option ColName :=
  if "team" ∈ df.cols then some "team"
  else if "recent_team" ∈ df.cols then some "recent_team" else none

def mainStatColsOf (df : Table) : List ColName :=
  mainStatColumns.filter (fun c => c ∈ df.cols)

/-- The rows of `df` at a given position (`df[df['position'] == pos]`). -/
def posRows (df : Table) (pos : String) : List Row :=
  df.rows.filter (fun r => Row.get r "position" = some (.strc (.txt pos)))

/-- One team row of `main.py`'s `calculate_team_analytics`, built from the
team's group (before the final sanitize): team id, summed statistics,
`np.where`-guarded ratios, position-partitioned PPR points and
touch/target sub-totals, then the offensive identity.  All column-adding
steps in the source are elementwise per team row. -/
def mainTeamRow (df : Table) (tc : ColName)
    (g : List (Option Cell) × List Row) : Row :=
  let statCols := mainStatColsOf df
  let teamCell : Cell := (g.1.headD none).getD (.strc .na)
  let sumOf : ColName → NVal := fun c => skipSum (colVals g.2 c)
  let teamOf : List Row → List Row :=
    fun rows => rows.filter (fun r => Row.get r tc = some teamCell)
  [(tc, teamCell)]
  ++ statCols.map (fun c => (c, Cell.numc (sumOf c)))
  ++ (if "rushing_yards" ∈ statCols ∧ "rushing_attempts" ∈ statCols then
      [("yards_per_carry", Cell.numc (if (sumOf "rushing_attempts").gt 0
          then (sumOf "rushing_yards").div (sumOf "rushing_attempts")
          else .fin 0))] else [])
  ++ (if "receptions" ∈ statCols ∧ "targets" ∈ statCols then
      [("catch_rate", Cell.numc (if (sumOf "targets").gt 0
          then (sumOf "receptions").div (sumOf "targets")
          else .fin 0))] else [])
  ++ (if "receiving_yards" ∈ statCols ∧ "targets" ∈ statCols then
      [("yards_per_target", Cell.numc (if (sumOf "targets").gt 0
          then (sumOf "receiving_yards").div (sumOf "targets")
          else .fin 0))] else [])
  ++ ([("QB", "qb_fantasy_points"), ("RB", "rb_fantasy_points"),
      ("WR", "wr_fantasy_points"), ("TE", "te_fantasy_points")].filterMap
      (fun pr =>
        if posRows df pr.1 ≠ [] ∧ "fantasy_points_ppr" ∈ df.cols then
          some (pr.2, Cell.numc
            (skipSum (colVals (teamOf (posRows df pr.1)) "fantasy_points_ppr")))
        else none))
  ++ (if posRows df "RB" ≠ [] ∧ "rushing_attempts" ∈ df.cols ∧
        "receptions" ∈ df.cols then
      [("rb_touches", Cell.numc (skipSum ((teamOf (posRows df "RB")).map
        (fun r => (rowNum r "rushing_attempts").add (rowNum r "receptions")))))]
      else [])
  ++ (if posRows df "WR" ≠ [] ∧ "targets" ∈ df.cols then
      [("wr_targets", Cell.numc
        (skipSum (colVals (teamOf (posRows df "WR")) "targets")))] else [])
  ++ (if posRows df "TE" ≠ [] ∧ "targets" ∈ df.cols then
      [("te_targets", Cell.numc
        (skipSum (colVals (teamOf (posRows df "TE")) "targets")))] else [])
  ++ (if "passing_yards" ∈ statCols ∧ "rushing_yards" ∈ statCols then
      let tot := (sumOf "passing_yards").add (sumOf "rushing_yards")
      let pct := if tot.gt 0 then ((sumOf "passing_yards").div tot).mul100
                 else .fin 0
      [("passing_percentage", Cell.numc pct),
       ("offensive_identity", Cell.strc (.txt (classify_offense pct)))]
      else [])

/-- `calculate_team_analytics` (`src/python-api/main.py` 386-487): group
the player table by its team column, sum the present statistics, derive
the guarded ratios and position sub-totals, classify the offensive
identity, and sanitize the result.  The unconditional
`aggregated_df[aggregated_df['position'] == pos]` raises a pandas
`KeyError` when no `position` column exists, modelled as `.error`. -/
def calculate_team_analytics (df : Table) : Except String (List Row) :=
  if df.rows.isEmpty then .ok []
  else
    match mainTeamCol df with
    | none => .ok []
    | some tc =>
      if mainStatColsOf df = [] then .ok []
      else if "position" ∉ df.cols then .error "KeyError: position"
      else .ok ((groupBy [tc] df.rows).map
        (fun g => sanitizeRow (mainTeamRow df tc g)))

/-! ## Team rollups in the extractor script
(`calculate_team_analytics`, `src/scripts/nfl_data_extractor.py`
333-466). -/

/-- Team-column detection in the roster frame: the first of
`team`, `team_abbr`, `recent_team` present. -/
def extTeamColOf (rosters : Table) : Option ColName :=
  if "team" ∈ rosters.cols then some "team"
  else if "team_abbr" ∈ rosters.cols then some "team_abbr"
  else if "recent_team" ∈ rosters.cols then some "recent_team" else none

/-- Insert with override: later roster rows win, as in
`set_index('player_id')[col].to_dict()`. -/
def insertOverride (m : List (String × SVal)) (k : String) (v : SVal) :
    List (String × SVal) :=
  if m.any (fun p => p.1 = k) then
    m.map (fun p => if p.1 = k then (k, v) else p)
  else m ++ [(k, v)]

def lookupSV (m : List (String × SVal)) (k : String) : Option SVal :=
  (m.find? (fun p => p.1 = k)).map (fun p => p.2)

/-- The roster-derived `player_id → team` mapping
(`nfl_data_extractor.py` 365).  Rows with a missing player id contribute
no usable binding (a NaN dictionary key never matches a string id). -/
def playerTeams (rosters : Table) (tc : ColName) : List (String × SVal) :=
  rosters.rows.foldl (fun m r =>
    match Row.get r "player_id", Row.get r tc with
    | some (.strc (.txt pid)), some (.strc v) => insertOverride m pid v
    | _, _ => m) []

/-- The team cell written into a data row:
`data_source['player_id'].map(player_teams)` — NaN when unmapped. -/
def mappedTeamCell (m : List (String × SVal)) (r : Row) : Cell :=
  match Row.get r "player_id" with
  | some (.strc (.txt pid)) =>
      match lookupSV m pid with
      | some sv => .strc sv
      | none => .strc .na
  | _ => .strc .na

/-- `data_source['team'] = data_source['player_id'].map(player_teams)`:
the team column is overwritten (or appended) with the mapped values. -/
def withTeam (ds : Table) (m : List (String × SVal)) : Table :=
  if "team" ∈ ds.cols then
    ⟨ds.cols, ds.rows.map (fun r => Row.set r "team" (mappedTeamCell m r))⟩
  else
    ⟨ds.cols ++ ["team"],
     ds.rows.map (fun r => r ++ [("team", mappedTeamCell m r)])⟩

/-- `data_source['team'].dropna().unique()` followed by the loop guard
skipping empty-string teams. -/
def extTeams (ds2 : Table) : List String :=
  (uniqFirstAux [] (ds2.rows.filterMap (fun r =>
    match Row.get r "team" with
    | some (.strc (.txt t)) => some t
    | _ => none))).filter (fun t => t ≠ "")

/-- Rows of the data source resolved to team `t`. -/
def teamRowsOf (ds2 : Table) (t : String) : List Row :=
  ds2.rows.filter (fun r => Row.get r "team" = some (.strc (.txt t)))

/-- A team-level statistic: the column's sum when present, else `0`. -/
def extStatSum (cols : List ColName) (rows : List Row) (c : ColName) : NVal :=
  if c ∈ cols then skipSum (colVals rows c) else .fin 0

/-- `mapM` over `Except`, with the first error propagated. -/
def mapExcept {α β ε : Type _} (f : α → Except ε β) : List α → Except ε (List β)
  | [] => .ok []
  | a :: t =>
    match f a with
    | .error e => .error e
    | .ok b =>
      match mapExcept f t with
      | .error e => .error e
      | .ok bs => .ok (b :: bs)

/-- The roster rows whose literal `team` column equals `t`
(`team_roster`, `nfl_data_extractor.py` 419). -/
def extTeamRoster (rosters : Table) (t : String) : List Row :=
  if "team" ∈ rosters.cols then
    rosters.rows.filter (fun r => Row.get r "team" = some (.strc (.txt t)))
  else []

/-- The roster-derived `player_id → position` mapping for one team
(`team_roster.set_index('player_id')['position'].to_dict()`). -/
def extPP (rosters : Table) (t : String) : List (String × SVal) :=
  (extTeamRoster rosters t).foldl (fun m r =>
    match Row.get r "player_id", Row.get r "position" with
    | some (.strc (.txt pid)), some (.strc v) => insertOverride m pid v
    | _, _ => m) []

/-- The team's rows at one roster-resolved position
(`team_players_with_pos[team_players_with_pos['position'] == pos]`). -/
def extPosRows (rows : List Row) (pp : List (String × SVal)) (pos : String) :
    List Row :=
  rows.filter (fun r =>
    match Row.get r "player_id" with
    | some (.strc (.txt pid)) => lookupSV pp pid = some (.txt pos)
    | _ => false)

/-- A position-restricted statistic sum, `0` when the column is absent or
the position has no players. -/
def extPosSum (cols : List ColName) (rows : List Row)
    (pp : List (String × SVal)) (pos : String) (c : ColName) : NVal :=
  if c ∈ cols ∧ extPosRows rows pp pos ≠ [] then
    skipSum (colVals (extPosRows rows pp pos) c)
  else .fin 0

/-- The fixed keys of one team's `offensive_stats` record, in insertion
order (`nfl_data_extractor.py` 383-444). -/
def extBaseNames : List ColName :=
  ["team", "total_fantasy_points", "total_fantasy_points_ppr",
   "passing_yards", "passing_tds", "interceptions_thrown",
   "rushing_yards", "rushing_tds", "rushing_attempts",
   "receiving_yards", "receiving_tds", "receptions", "targets",
   "yards_per_carry", "catch_rate", "yards_per_target",
   "qb_fantasy_points", "rb_fantasy_points", "wr_fantasy_points",
   "te_fantasy_points", "rb_touches", "wr_targets", "te_targets"]

/-- The head of one team's record: team id, summed statistics
(`rushing_attempts` summed from the `carries` column, as in the source),
guarded efficiency ratios, and position sub-totals. -/
def extHeadRow (t : String) (s : ColName → NVal)
    (ps : String → ColName → NVal) : Row :=
  [("team", Cell.strc (.txt t)),
   ("total_fantasy_points", Cell.numc (s "fantasy_points")),
   ("total_fantasy_points_ppr", Cell.numc (s "fantasy_points_ppr")),
   ("passing_yards", Cell.numc (s "passing_yards")),
   ("passing_tds", Cell.numc (s "passing_tds")),
   ("interceptions_thrown", Cell.numc (s "interceptions")),
   ("rushing_yards", Cell.numc (s "rushing_yards")),
   ("rushing_tds", Cell.numc (s "rushing_tds")),
   ("rushing_attempts", Cell.numc (s "carries")),
   ("receiving_yards", Cell.numc (s "receiving_yards")),
   ("receiving_tds", Cell.numc (s "receiving_tds")),
   ("receptions", Cell.numc (s "receptions")),
   ("targets", Cell.numc (s "targets")),
   ("yards_per_carry", Cell.numc (if (s "carries").gt 0
      then (s "rushing_yards").div (s "carries") else .fin 0)),
   ("catch_rate", Cell.numc (if (s "targets").gt 0
      then ((s "receptions").div (s "targets")).mul100 else .fin 0)),
   ("yards_per_target", Cell.numc (if (s "targets").gt 0
      then (s "receiving_yards").div (s "targets") else .fin 0)),
   ("qb_fantasy_points", Cell.numc (ps "QB" "fantasy_points_ppr")),
   ("rb_fantasy_points", Cell.numc (ps "RB" "fantasy_points_ppr")),
   ("wr_fantasy_points", Cell.numc (ps "WR" "fantasy_points_ppr")),
   ("te_fantasy_points", Cell.numc (ps "TE" "fantasy_points_ppr")),
   ("rb_touches", Cell.numc ((ps "RB" "carries").add (ps "RB" "targets"))),
   ("wr_targets", Cell.numc (ps "WR" "targets")),
   ("te_targets", Cell.numc (ps "TE" "targets"))]

/-- The optional red-zone sums (`nfl_data_extractor.py` 446-452). -/
def extRzRow (cols : List ColName) (rows : List Row) : Row :=
  (if "red_zone_targets" ∈ cols then
    [("red_zone_targets", Cell.numc (skipSum (colVals rows "red_zone_targets")))]
   else [])
  ++ (if "red_zone_carries" ∈ cols then
    [("red_zone_carries", Cell.numc (skipSum (colVals rows "red_zone_carries")))]
   else [])
  ++ (if "red_zone_touches" ∈ cols then
    [("red_zone_touches", Cell.numc (skipSum (colVals rows "red_zone_touches")))]
   else [])

/-- The offensive-identity entries (`nfl_data_extractor.py` 454-462):
`Unknown` with percentage `0` when total offensive yardage is not
positive, otherwise the threshold classification. -/
def extIdRow (s : ColName → NVal) : Row :=
  let tot := (s "passing_yards").add (s "rushing_yards")
  if tot.gt 0 then
    [("offensive_identity", Cell.strc (.txt
        (classify_offense (((s "passing_yards").div tot).mul100)))),
     ("passing_percentage", Cell.numc (((s "passing_yards").div tot).mul100))]
  else
    [("offensive_identity", Cell.strc (.txt "Unknown")),
     ("passing_percentage", Cell.numc (.fin 0))]

/-- One team's `offensive_stats` record (`nfl_data_extractor.py`
376-464).  The roster-position lookup
(`team_roster.set_index('player_id')['position']`) raises a pandas
`KeyError` when the roster lacks a `position` column and `team_roster` is
non-empty, modelled as `.error`. -/
def extTeamRow (ds2 rosters : Table) (t : String) : Except String Row :=
  if extTeamRoster rosters t ≠ [] ∧ "position" ∉ rosters.cols then
    .error "KeyError: position"
  else
    .ok (extHeadRow t (extStatSum ds2.cols (teamRowsOf ds2 t))
          (extPosSum ds2.cols (teamRowsOf ds2 t) (extPP rosters t))
        ++ extRzRow ds2.cols (teamRowsOf ds2 t)
        ++ extIdRow (extStatSum ds2.cols (teamRowsOf ds2 t)))

/-- The data-source preference of the extractor's team analytics:
aggregated season stats, else seasonal, else weekly. -/
def extDataSource (weekly seasonal aggregated : Table) : Table :=
  if ¬ aggregated.rows.isEmpty then aggregated
  else if ¬ seasonal.rows.isEmpty then seasonal
  else weekly

/-- `calculate_team_analytics` (`src/scripts/nfl_data_extractor.py`
333-466): pick the data source, resolve each player's team through the
roster mapping, and emit one `offensive_stats` record per distinct
non-null, non-empty team. -/
def calculate_team_analytics_ext (weekly seasonal rosters aggregated : Table) :
    Except String (List Row) :=
  if (weekly.rows.isEmpty ∧ seasonal.rows.isEmpty) ∨ rosters.rows.isEmpty then
    .ok []
  else
    let ds := extDataSource weekly seasonal aggregated
    match extTeamColOf rosters with
    | none => .ok []
    | some tc =>
      if "player_id" ∉ rosters.cols then .error "KeyError: player_id"
      else if "player_id" ∉ ds.cols then .error "KeyError: player_id"
      else
        let ds2 := withTeam ds (playerTeams rosters tc)
        mapExcept (extTeamRow ds2 rosters) (extTeams ds2)

section TeamLemmas

lemma Row.get_cons_ne (a : ColName) (v : Cell) (r : Row) (c : ColName)
    (h : a ≠ c) : Row.get ((a, v) :: r) c = Row.get r c := by
  simp [Row.get, List.find?, h]

lemma mem_ite_nil {c : Prop} [Decidable c] {xs : Row} {p : ColName × Cell}
    (h : p ∈ (if c then xs else ([] : Row))) : p ∈ xs := by
  split at h
  · exact h
  · simp at h

lemma fst_mem_of_filterMap_snd {l : List (String × String)}
    {cond : String × String → Prop} [DecidablePred cond]
    {val : String × String → Cell} {p : ColName × Cell}
    (h : p ∈ l.filterMap (fun pr => if cond pr then some (pr.2, val pr) else none)) :
    p.1 ∈ l.map (fun pr => pr.2) := by
  obtain ⟨pr, hpr, hf⟩ := List.mem_filterMap.mp h
  split at hf
  · injection hf with h1
    rw [← h1]
    exact List.mem_map_of_mem _ hpr
  · simp at hf

lemma sanitizeRow_get (r : Row) (c : ColName) :
    Row.get (sanitizeRow r) c = (Row.get r c).map sanitizeCell := by
  induction r with
  | nil => rfl
  | cons a t ih =>
    by_cases h : a.1 = c
    · simp [sanitizeRow, Row.get, List.find?, h]
    · simp only [sanitizeRow, List.map_cons] at ih ⊢
      simp [Row.get, List.find?, h] at ih ⊢
      exact ih

lemma mainTA_shape (df : Table) (tc : ColName)
    (h0 : df.rows.isEmpty = false) (h1 : mainTeamCol df = some tc)
    (h2 : mainStatColsOf df ≠ []) (h3 : "position" ∈ df.cols) :
    calculate_team_analytics df =
      Except.ok ((groupBy [tc] df.rows).map
        (fun g => sanitizeRow (mainTeamRow df tc g))) := by
  unfold calculate_team_analytics
  simp only [if_neg (show ¬(df.rows.isEmpty = true) by simp [h0]), h1]
  rw [if_neg h2, if_neg (by simp [h3])]

lemma mainTeamCol_cases (df : Table) (tc : ColName)
    (h : mainTeamCol df = some tc) : tc = "team" ∨ tc = "recent_team" := by
  unfold mainTeamCol at h
  split_ifs at h <;> simp_all

lemma extTeamRow_ok (ds2 rosters : Table) (t : String) (row : Row)
    (h : extTeamRow ds2 rosters t = .ok row) :
    row = extHeadRow t (extStatSum ds2.cols (teamRowsOf ds2 t))
            (extPosSum ds2.cols (teamRowsOf ds2 t) (extPP rosters t))
          ++ extRzRow ds2.cols (teamRowsOf ds2 t)
          ++ extIdRow (extStatSum ds2.cols (teamRowsOf ds2 t)) := by
  unfold extTeamRow at h
  split at h
  · exact absurd h (by simp)
  · injection h with h1
    exact h1.symm

lemma extHeadRow_fst (t : String) (s : ColName → NVal)
    (ps : String → ColName → NVal) (p : ColName × Cell)
    (h : p ∈ extHeadRow t s ps) : p.1 ∈ extBaseNames := by
  unfold extHeadRow at h
  simp only [List.mem_cons] at h
  rcases h with rfl | rfl | rfl | rfl | rfl | rfl | rfl | rfl | rfl | rfl |
    rfl | rfl | rfl | rfl | rfl | rfl | rfl | rfl | rfl | rfl | rfl | rfl |
    rfl | h
  all_goals first
  | (simp at h)
  | simp [extBaseNames]

lemma extRzRow_fst (cols : List ColName) (rows : List Row)
    (p : ColName × Cell) (h : p ∈ extRzRow cols rows) :
    p.1 ∈ ["red_zone_targets", "red_zone_carries", "red_zone_touches"] := by
  unfold extRzRow at h
  rcases List.mem_append.mp h with h | h
  · rcases List.mem_append.mp h with h | h
    · have h2 := mem_ite_nil h
      simp only [List.mem_singleton] at h2
      rw [h2]
      simp
    · have h2 := mem_ite_nil h
      simp only [List.mem_singleton] at h2
      rw [h2]
      simp
  · have h2 := mem_ite_nil h
    simp only [List.mem_singleton] at h2
    rw [h2]
    simp

lemma mapExcept_mem_of_ok {α β ε : Type _} (f : α → Except ε β)
    (l : List α) (out : List β) (h : mapExcept f l = .ok out) :
    ∀ b ∈ out, ∃ a ∈ l, f a = .ok b := by
  induction l generalizing out with
  | nil =>
    unfold mapExcept at h
    injection h with h1
    rw [← h1]
    intro b hb
    simp at hb
  | cons a t ih =>
    unfold mapExcept at h
    cases hfa : f a with
    | error e => rw [hfa] at h; exact absurd h (by simp)
    | ok b0 =>
      rw [hfa] at h
      cases hrest : mapExcept f t with
      | error e => rw [hrest] at h; exact absurd h (by simp)
      | ok bs =>
        rw [hrest] at h
        injection h with h1
        rw [← h1]
        intro b hb
        rcases List.mem_cons.mp hb with rfl | hb
        · exact ⟨a, List.mem_cons_self a t, hfa⟩
        · obtain ⟨a2, ha2, hfa2⟩ := ih bs hrest b hb
          exact ⟨a2, List.mem_cons_of_mem a ha2, hfa2⟩

lemma mapExcept_ok_of_mem {α β ε : Type _} (f : α → Except ε β)
    (l : List α) (out : List β) (h : mapExcept f l = .ok out) :
    ∀ a ∈ l, ∃ b ∈ out, f a = .ok b := by
  induction l generalizing out with
  | nil => intro a ha; simp at ha
  | cons a0 t ih =>
    unfold mapExcept at h
    cases hfa : f a0 with
    | error e => rw [hfa] at h; exact absurd h (by simp)
    | ok b0 =>
      rw [hfa] at h
      cases hrest : mapExcept f t with
      | error e => rw [hrest] at h; exact absurd h (by simp)
      | ok bs =>
        rw [hrest] at h
        injection h with h1
        intro a ha
        rcases List.mem_cons.mp ha with rfl | ha
        · exact ⟨b0, by rw [← h1]; exact List.mem_cons_self b0 bs, hfa⟩
        · obtain ⟨b2, hb2, hfb2⟩ := ih bs hrest a ha
          exact ⟨b2, by rw [← h1]; exact List.mem_cons_of_mem b0 hb2, hfb2⟩

end TeamLemmas

section IdentityLemmas

lemma NVal_add_fin (a b : ℚ) : (NVal.fin a).add (.fin b) = .fin (a + b) := by
  simp only [NVal.add, qadd_eq]

lemma NVal_gt_fin (q c : ℚ) : (NVal.fin q).gt c = true ↔ c < q := by
  unfold NVal.gt
  exact qlt_iff c q

lemma NVal_lt_fin (q c : ℚ) : (NVal.fin q).lt c = true ↔ q < c := by
  unfold NVal.lt
  exact qlt_iff q c

lemma NVal_div_fin (a b : ℚ) (hb : b ≠ 0) :
    (NVal.fin a).div (.fin b) = .fin (a / b) := by
  simp only [NVal.div, if_pos hb, qdiv_eq a b hb]

lemma NVal_mul100_fin (a : ℚ) : (NVal.fin a).mul100 = .fin (a * 100) := by
  simp only [NVal.mul100, qmul100_eq]

/-- The threshold classification on a finite percentage, in terms of
ordinary rational comparisons. -/
lemma classify_fin (q : ℚ) : classify_offense (.fin q) =
    (if 60 < q then "Pass-Heavy"
     else if q < 40 then "Run-Heavy" else "Balanced") := by
  unfold classify_offense
  by_cases h1 : 60 < q
  · rw [if_pos ((NVal_gt_fin q 60).mpr h1), if_pos h1]
  · rw [if_neg (fun hc => h1 ((NVal_gt_fin q 60).mp hc)), if_neg h1]
    by_cases h2 : q < 40
    · rw [if_pos ((NVal_lt_fin q 40).mpr h2), if_pos h2]
    · rw [if_neg (fun hc => h2 ((NVal_lt_fin q 40).mp hc)), if_neg h2]

/-- `main.py`'s `passing_percentage` of one team group:
`np.where(total > 0, passing / total * 100, 0.0)` on the group sums. -/
def mainPct (g : List (Option Cell) × List Row) : NVal :=
  if ((skipSum (colVals g.2 "passing_yards")).add
      (skipSum (colVals g.2 "rushing_yards"))).gt 0 then
    ((skipSum (colVals g.2 "passing_yards")).div
      ((skipSum (colVals g.2 "passing_yards")).add
        (skipSum (colVals g.2 "rushing_yards")))).mul100
  else .fin 0

lemma mainPct_pos (g : List (Option Cell) × List Row) (pv rv : ℚ)
    (hp : skipSum (colVals g.2 "passing_yards") = .fin pv)
    (hr : skipSum (colVals g.2 "rushing_yards") = .fin rv)
    (hpos : 0 < pv + rv) : mainPct g = .fin (pv / (pv + rv) * 100) := by
  unfold mainPct
  rw [hp, hr, NVal_add_fin, if_pos ((NVal_gt_fin _ _).mpr hpos),
    NVal_div_fin _ _ (ne_of_gt hpos), NVal_mul100_fin]

lemma mainPct_zero (g : List (Option Cell) × List Row) (pv rv : ℚ)
    (hp : skipSum (colVals g.2 "passing_yards") = .fin pv)
    (hr : skipSum (colVals g.2 "rushing_yards") = .fin rv)
    (hz : pv + rv = 0) : mainPct g = .fin 0 := by
  unfold mainPct
  rw [hp, hr, NVal_add_fin, hz,
    if_neg (show ¬((NVal.fin 0).gt 0 = true) by decide)]

lemma extIdRow_pos (s : ColName → NVal) (pv rv : ℚ)
    (hp : s "passing_yards" = .fin pv) (hr : s "rushing_yards" = .fin rv)
    (hpos : 0 < pv + rv) :
    extIdRow s =
      [("offensive_identity", Cell.strc (.txt
          (if 60 < pv / (pv + rv) * 100 then "Pass-Heavy"
           else if pv / (pv + rv) * 100 < 40 then "Run-Heavy"
           else "Balanced"))),
       ("passing_percentage", Cell.numc (.fin (pv / (pv + rv) * 100)))] := by
  unfold extIdRow
  rw [hp, hr, NVal_add_fin, if_pos ((NVal_gt_fin _ _).mpr hpos),
    NVal_div_fin _ _ (ne_of_gt hpos), NVal_mul100_fin, classify_fin]

lemma extIdRow_zero (s : ColName → NVal) (pv rv : ℚ)
    (hp : s "passing_yards" = .fin pv) (hr : s "rushing_yards" = .fin rv)
    (hz : pv + rv = 0) :
    extIdRow s =
      [("offensive_identity", Cell.strc (.txt "Unknown")),
       ("passing_percentage", Cell.numc (.fin 0))] := by
  unfold extIdRow
  rw [hp, hr, NVal_add_fin, hz,
    if_neg (show ¬((NVal.fin 0).gt 0 = true) by decide)]

end IdentityLemmas

section RollupShape

lemma mainStatColsOf_mem (df : Table) (c : ColName) (hdf : c ∈ df.cols)
    (hc : c ∈ mainStatColumns) : c ∈ mainStatColsOf df :=
  List.mem_filter.mpr ⟨hc, by simpa using hdf⟩

lemma mainStatColsOf_sub (df : Table) (c : ColName)
    (hc : c ∈ mainStatColsOf df) : c ∈ mainStatColumns :=
  (List.mem_filter.mp hc).1

/-- The `passing_percentage` and `offensive_identity` cells of one of
`main.py`'s team rows, when the yardage columns are present. -/
lemma mainTeamRow_get_pct (df : Table) (tc : ColName)
    (g : List (Option Cell) × List Row)
    (htc : tc = "team" ∨ tc = "recent_team")
    (hpy : "passing_yards" ∈ df.cols) (hry : "rushing_yards" ∈ df.cols) :
    Row.get (mainTeamRow df tc g) "passing_percentage" =
      some (.numc (mainPct g)) ∧
    Row.get (mainTeamRow df tc g) "offensive_identity" =
      some (.strc (.txt (classify_offense (mainPct g)))) := by
  have hpy' : "passing_yards" ∈ mainStatColsOf df :=
    mainStatColsOf_mem df _ hpy (by decide)
  have hry' : "rushing_yards" ∈ mainStatColsOf df :=
    mainStatColsOf_mem df _ hry (by decide)
  have htc1 : tc ≠ "passing_percentage" := by
    rcases htc with rfl | rfl <;> decide
  have htc2 : tc ≠ "offensive_identity" := by
    rcases htc with rfl | rfl <;> decide
  simp only [mainTeamRow]
  simp only [List.append_assoc, List.singleton_append]
  constructor
  · rw [Row.get_append_of_not_mem _ _ _ (fun p hp => by
      rcases List.mem_cons.mp hp with heq | hp2
      · rw [heq]
        exact htc1
      · exact ne_of_mem_of_not_mem
          (List.mem_filter.mp (fst_mem_of_mem_map_pair _ _ p hp2)).1
          (by decide))]
    rw [Row.get_append_of_not_mem _ _ _ (fun p hp => by
      have h2 := mem_ite_nil hp
      simp only [List.mem_singleton] at h2
      rw [h2]
      simp)]
    rw [Row.get_append_of_not_mem _ _ _ (fun p hp => by
      have h2 := mem_ite_nil hp
      simp only [List.mem_singleton] at h2
      rw [h2]
      simp)]
    rw [Row.get_append_of_not_mem _ _ _ (fun p hp => by
      have h2 := mem_ite_nil hp
      simp only [List.mem_singleton] at h2
      rw [h2]
      simp)]
    rw [Row.get_append_of_not_mem _ _ _ (fun p hp =>
      ne_of_mem_of_not_mem (fst_mem_of_filterMap_snd hp) (by decide))]
    rw [Row.get_append_of_not_mem _ _ _ (fun p hp => by
      have h2 := mem_ite_nil hp
      simp only [List.mem_singleton] at h2
      rw [h2]
      simp)]
    rw [Row.get_append_of_not_mem _ _ _ (fun p hp => by
      have h2 := mem_ite_nil hp
      simp only [List.mem_singleton] at h2
      rw [h2]
      simp)]
    rw [Row.get_append_of_not_mem _ _ _ (fun p hp => by
      have h2 := mem_ite_nil hp
      simp only [List.mem_singleton] at h2
      rw [h2]
      simp)]
    rw [if_pos ⟨hpy', hry'⟩, Row.get_cons_self]
    rfl
  · rw [Row.get_append_of_not_mem _ _ _ (fun p hp => by
      rcases List.mem_cons.mp hp with heq | hp2
      · rw [heq]
        exact htc2
      · exact ne_of_mem_of_not_mem
          (List.mem_filter.mp (fst_mem_of_mem_map_pair _ _ p hp2)).1
          (by decide))]
    rw [Row.get_append_of_not_mem _ _ _ (fun p hp => by
      have h2 := mem_ite_nil hp
      simp only [List.mem_singleton] at h2
      rw [h2]
      simp)]
    rw [Row.get_append_of_not_mem _ _ _ (fun p hp => by
      have h2 := mem_ite_nil hp
      simp only [List.mem_singleton] at h2
      rw [h2]
      simp)]
    rw [Row.get_append_of_not_mem _ _ _ (fun p hp => by
      have h2 := mem_ite_nil hp
      simp only [List.mem_singleton] at h2
      rw [h2]
      simp)]
    rw [Row.get_append_of_not_mem _ _ _ (fun p hp =>
      ne_of_mem_of_not_mem (fst_mem_of_filterMap_snd hp) (by decide))]
    rw [Row.get_append_of_not_mem _ _ _ (fun p hp => by
      have h2 := mem_ite_nil hp
      simp only [List.mem_singleton] at h2
      rw [h2]
      simp)]
    rw [Row.get_append_of_not_mem _ _ _ (fun p hp => by
      have h2 := mem_ite_nil hp
      simp only [List.mem_singleton] at h2
      rw [h2]
      simp)]
    rw [Row.get_append_of_not_mem _ _ _ (fun p hp => by
      have h2 := mem_ite_nil hp
      simp only [List.mem_singleton] at h2
      rw [h2]
      simp)]
    rw [if_pos ⟨hpy', hry'⟩]
    rw [Row.get_cons_ne _ _ _ _ (by decide), Row.get_cons_self]
    rfl

lemma extTA_shape (weekly seasonal rosters aggregated : Table) (tc : ColName)
    (h0w : weekly.rows.isEmpty = false)
    (h0r : rosters.rows.isEmpty = false)
    (h1 : extTeamColOf rosters = some tc)
    (h2 : "player_id" ∈ rosters.cols)
    (h3 : "player_id" ∈ (extDataSource weekly seasonal aggregated).cols) :
    calculate_team_analytics_ext weekly seasonal rosters aggregated =
      mapExcept
        (extTeamRow (withTeam (extDataSource weekly seasonal aggregated)
          (playerTeams rosters tc)) rosters)
        (extTeams (withTeam (extDataSource weekly seasonal aggregated)
          (playerTeams rosters tc))) := by
  unfold calculate_team_analytics_ext
  rw [if_neg (by simp [h0w, h0r])]
  simp only [h1]
  rw [if_neg (by simp [h2]), if_neg (by simp [h3])]

end RollupShape

/-- A team with zero passing and zero rushing yardage, through the API
variant (which guards the division with `np.where(total > 0, ..., 0.0)`). -/
def c4Df : Table :=
  ⟨["team", "position", "passing_yards", "rushing_yards"],
   [[("team", .strc (.txt "KC")), ("position", .strc (.txt "QB")),
     ("passing_yards", .numc (.fin 0)), ("rushing_yards", .numc (.fin 0))]]⟩

/-- Claim C4 counterexample: on zero total yardage the guarded variant
(`main.py`) yields `"Run-Heavy"` — the guarded percentage `0.0` falls
into the `< 40` branch — not `"Balanced"` as the claim states. -/
theorem C4_counterexample :
    (calculate_team_analytics c4Df).toOption.map
        (fun rows => rows.map (fun r => Row.get r "offensive_identity")) =
      some [some (.strc (.txt "Run-Heavy"))] ∧
    ("Run-Heavy" : String) ≠ "Balanced" := by
  constructor
  · decide
  · decide

/-- Claim C4 (amended): when a team's total offensive yardage is zero,
the pipeline variant that guards the passing-percentage division with a
zero-total-yards check (`main.py`) classifies the team's offensive
identity as `"Run-Heavy"` (the guarded percentage `0.0` satisfies
`pct < 40`), while the other variant (the extractor script) classifies it
as `"Unknown"`. -/
theorem C4_zero_yardage_amended
    (df : Table) (tc : ColName) (g : List (Option Cell) × List Row)
    (pv rv : ℚ) (ds2 rosters : Table) (t : String) (row : Row) (pe rev : ℚ)
    (h0 : df.rows.isEmpty = false) (h1 : mainTeamCol df = some tc)
    (h2 : mainStatColsOf df ≠ []) (h3 : "position" ∈ df.cols)
    (hpy : "passing_yards" ∈ df.cols) (hry : "rushing_yards" ∈ df.cols)
    (hg : g ∈ groupBy [tc] df.rows)
    (hp : skipSum (colVals g.2 "passing_yards") = .fin pv)
    (hr : skipSum (colVals g.2 "rushing_yards") = .fin rv)
    (hz : pv + rv = 0)
    (he : extTeamRow ds2 rosters t = .ok row)
    (hep : extStatSum ds2.cols (teamRowsOf ds2 t) "passing_yards" = .fin pe)
    (her : extStatSum ds2.cols (teamRowsOf ds2 t) "rushing_yards" = .fin rev)
    (hez : pe + rev = 0) :
    (∃ out, calculate_team_analytics df = Except.ok out ∧
        sanitizeRow (mainTeamRow df tc g) ∈ out) ∧
    Row.get (sanitizeRow (mainTeamRow df tc g)) "offensive_identity" =
      some (.strc (.txt "Run-Heavy")) ∧
    Row.get row "offensive_identity" = some (.strc (.txt "Unknown")) := by
  refine ⟨⟨_, mainTA_shape df tc h0 h1 h2 h3, ?_⟩, ?_, ?_⟩
  · exact List.mem_map_of_mem _ hg
  · rw [sanitizeRow_get,
      (mainTeamRow_get_pct df tc g (mainTeamCol_cases df tc h1) hpy hry).2,
      mainPct_zero g pv rv hp hr hz]
    rfl
  · rw [extTeamRow_ok _ _ _ _ he, List.append_assoc]
    rw [Row.get_append_of_not_mem _ _ _ (fun p hp2 =>
      ne_of_mem_of_not_mem (extHeadRow_fst _ _ _ p hp2) (by decide))]
    rw [Row.get_append_of_not_mem _ _ _ (fun p hp2 =>
      ne_of_mem_of_not_mem (extRzRow_fst _ _ p hp2) (by decide))]
    rw [extIdRow_zero _ pe rev hep her hez]
    exact Row.get_cons_self _ _ _

def c4Group : List (Option Cell) × List Row :=
  ([some (.strc (.txt "KC"))], c4Df.rows)

/-- A zero-yardage aggregated row and its roster, for the extractor. -/
def c4ExtAgg : Table :=
  ⟨["player_id", "passing_yards", "rushing_yards"],
   [[("player_id", .strc (.txt "P1")), ("passing_yards", .numc (.fin 0)),
     ("rushing_yards", .numc (.fin 0))]]⟩

def c4Roster : Table :=
  ⟨["player_id", "team", "position"],
   [[("player_id", .strc (.txt "P1")), ("team", .strc (.txt "KC")),
     ("position", .strc (.txt "QB"))]]⟩

def c4Ds2 : Table := withTeam c4ExtAgg (playerTeams c4Roster "team")

def c4ExtRowTerm : Row :=
  extHeadRow "KC" (extStatSum c4Ds2.cols (teamRowsOf c4Ds2 "KC"))
      (extPosSum c4Ds2.cols (teamRowsOf c4Ds2 "KC") (extPP c4Roster "KC"))
    ++ extRzRow c4Ds2.cols (teamRowsOf c4Ds2 "KC")
    ++ extIdRow (extStatSum c4Ds2.cols (teamRowsOf c4Ds2 "KC"))

/-- Witness for the amended C4 at zero-yardage concrete inputs. -/
theorem C4_zero_yardage_amended_witness :
    (∃ out, calculate_team_analytics c4Df = Except.ok out ∧
        sanitizeRow (mainTeamRow c4Df "team" c4Group) ∈ out) ∧
    Row.get (sanitizeRow (mainTeamRow c4Df "team" c4Group))
      "offensive_identity" = some (.strc (.txt "Run-Heavy")) ∧
    Row.get c4ExtRowTerm "offensive_identity" =
      some (.strc (.txt "Unknown")) := by
  have h := C4_zero_yardage_amended c4Df "team" c4Group 0 0 c4Ds2 c4Roster
    "KC" c4ExtRowTerm 0 0 rfl rfl (by decide) (by decide) (by decide)
    (by decide) (by decide) (by decide) (by decide) (by norm_num)
    rfl (by decide) (by decide) (by norm_num)
  exact ⟨h.1, h.2.1, h.2.2⟩

/-- Claim C5: for every team row with total offensive yardage greater
than zero, both Team Rollup variants compute
`passing_percentage = passing_yards / (passing_yards + rushing_yards) × 100`
and classify the offensive identity as `"Pass-Heavy"` when that
percentage exceeds 60, `"Run-Heavy"` when below 40, and `"Balanced"`
otherwise. -/
theorem C5_passing_percentage_classification
    (df : Table) (tc : ColName) (g : List (Option Cell) × List Row)
    (pv rv : ℚ) (ds2 rosters : Table) (t : String) (row : Row) (pe rev : ℚ)
    (h0 : df.rows.isEmpty = false) (h1 : mainTeamCol df = some tc)
    (h2 : mainStatColsOf df ≠ []) (h3 : "position" ∈ df.cols)
    (hpy : "passing_yards" ∈ df.cols) (hry : "rushing_yards" ∈ df.cols)
    (hg : g ∈ groupBy [tc] df.rows)
    (hp : skipSum (colVals g.2 "passing_yards") = .fin pv)
    (hr : skipSum (colVals g.2 "rushing_yards") = .fin rv)
    (hpos : 0 < pv + rv)
    (he : extTeamRow ds2 rosters t = .ok row)
    (hep : extStatSum ds2.cols (teamRowsOf ds2 t) "passing_yards" = .fin pe)
    (her : extStatSum ds2.cols (teamRowsOf ds2 t) "rushing_yards" = .fin rev)
    (hepos : 0 < pe + rev) :
    (∃ out, calculate_team_analytics df = Except.ok out ∧
        sanitizeRow (mainTeamRow df tc g) ∈ out) ∧
    Row.get (sanitizeRow (mainTeamRow df tc g)) "passing_percentage" =
      some (.numc (.fin (pv / (pv + rv) * 100))) ∧
    Row.get (sanitizeRow (mainTeamRow df tc g)) "offensive_identity" =
      some (.strc (.txt (if 60 < pv / (pv + rv) * 100 then "Pass-Heavy"
        else if pv / (pv + rv) * 100 < 40 then "Run-Heavy"
        else "Balanced"))) ∧
    Row.get row "passing_percentage" =
      some (.numc (.fin (pe / (pe + rev) * 100))) ∧
    Row.get row "offensive_identity" =
      some (.strc (.txt (if 60 < pe / (pe + rev) * 100 then "Pass-Heavy"
        else if pe / (pe + rev) * 100 < 40 then "Run-Heavy"
        else "Balanced"))) := by
  have hid := mainTeamRow_get_pct df tc g (mainTeamCol_cases df tc h1) hpy hry
  have hext : Row.get row "offensive_identity" =
      Row.get (extIdRow (extStatSum ds2.cols (teamRowsOf ds2 t)))
        "offensive_identity" ∧
      Row.get row "passing_percentage" =
      Row.get (extIdRow (extStatSum ds2.cols (teamRowsOf ds2 t)))
        "passing_percentage" := by
    rw [extTeamRow_ok _ _ _ _ he, List.append_assoc]
    constructor <;>
    · rw [Row.get_append_of_not_mem _ _ _ (fun p hp2 =>
        ne_of_mem_of_not_mem (extHeadRow_fst _ _ _ p hp2) (by decide))]
      rw [Row.get_append_of_not_mem _ _ _ (fun p hp2 =>
        ne_of_mem_of_not_mem (extRzRow_fst _ _ p hp2) (by decide))]
  refine ⟨⟨_, mainTA_shape df tc h0 h1 h2 h3, List.mem_map_of_mem _ hg⟩,
    ?_, ?_, ?_, ?_⟩
  · rw [sanitizeRow_get, hid.1, mainPct_pos g pv rv hp hr hpos]
    rfl
  · rw [sanitizeRow_get, hid.2, mainPct_pos g pv rv hp hr hpos, classify_fin]
    rfl
  · rw [hext.2, extIdRow_pos _ pe rev hep her hepos]
    rw [Row.get_cons_ne _ _ _ _ (by decide)]
    exact Row.get_cons_self _ _ _
  · rw [hext.1, extIdRow_pos _ pe rev hep her hepos]
    exact Row.get_cons_self _ _ _

def c5RowP : Row :=
  [("team", .strc (.txt "PASS_HEAVY")), ("position", .strc (.txt "QB")),
   ("passing_yards", .numc (.fin 400)), ("rushing_yards", .numc (.fin 100))]

def c5RowR : Row :=
  [("team", .strc (.txt "RUN_HEAVY")), ("position", .strc (.txt "RB")),
   ("passing_yards", .numc (.fin 150)), ("rushing_yards", .numc (.fin 350))]

def c5RowB : Row :=
  [("team", .strc (.txt "BALANCED")), ("position", .strc (.txt "QB")),
   ("passing_yards", .numc (.fin 250)), ("rushing_yards", .numc (.fin 250))]

/-- The spec's three classification scenarios in one player table. -/
def c5Df : Table :=
  ⟨["team", "position", "passing_yards", "rushing_yards"],
   [c5RowP, c5RowR, c5RowB]⟩

def c5GroupP : List (Option Cell) × List Row :=
  ([some (.strc (.txt "PASS_HEAVY"))], [c5RowP])

def c5GroupR : List (Option Cell) × List Row :=
  ([some (.strc (.txt "RUN_HEAVY"))], [c5RowR])

def c5GroupB : List (Option Cell) × List Row :=
  ([some (.strc (.txt "BALANCED"))], [c5RowB])

/-- An aggregated 400/100-yard row and its roster, for the extractor. -/
def c5ExtAgg : Table :=
  ⟨["player_id", "passing_yards", "rushing_yards"],
   [[("player_id", .strc (.txt "P1")), ("passing_yards", .numc (.fin 400)),
     ("rushing_yards", .numc (.fin 100))]]⟩

def c5Ds2 : Table := withTeam c5ExtAgg (playerTeams c4Roster "team")

def c5ExtRowTerm : Row :=
  extHeadRow "KC" (extStatSum c5Ds2.cols (teamRowsOf c5Ds2 "KC"))
      (extPosSum c5Ds2.cols (teamRowsOf c5Ds2 "KC") (extPP c4Roster "KC"))
    ++ extRzRow c5Ds2.cols (teamRowsOf c5Ds2 "KC")
    ++ extIdRow (extStatSum c5Ds2.cols (teamRowsOf c5Ds2 "KC"))

/-- Witness for C5 at the spec's scenarios: 400/100 ⇒ 80.0 ⇒ Pass-Heavy,
150/350 ⇒ 30.0 ⇒ Run-Heavy, 250/250 ⇒ 50.0 ⇒ Balanced, and the extractor
at 400/100 ⇒ 80.0 ⇒ Pass-Heavy. -/
theorem C5_passing_percentage_classification_witness :
    Row.get (sanitizeRow (mainTeamRow c5Df "team" c5GroupP))
      "passing_percentage" = some (.numc (.fin 80)) ∧
    Row.get (sanitizeRow (mainTeamRow c5Df "team" c5GroupP))
      "offensive_identity" = some (.strc (.txt "Pass-Heavy")) ∧
    Row.get (sanitizeRow (mainTeamRow c5Df "team" c5GroupR))
      "passing_percentage" = some (.numc (.fin 30)) ∧
    Row.get (sanitizeRow (mainTeamRow c5Df "team" c5GroupR))
      "offensive_identity" = some (.strc (.txt "Run-Heavy")) ∧
    Row.get (sanitizeRow (mainTeamRow c5Df "team" c5GroupB))
      "passing_percentage" = some (.numc (.fin 50)) ∧
    Row.get (sanitizeRow (mainTeamRow c5Df "team" c5GroupB))
      "offensive_identity" = some (.strc (.txt "Balanced")) ∧
    Row.get c5ExtRowTerm "passing_percentage" =
      some (.numc (.fin 80)) ∧
    Row.get c5ExtRowTerm "offensive_identity" =
      some (.strc (.txt "Pass-Heavy")) := by
  have hP := C5_passing_percentage_classification c5Df "team" c5GroupP
    400 100 c5Ds2 c4Roster "KC" c5ExtRowTerm 400 100 rfl rfl (by decide)
    (by decide) (by decide) (by decide) (by decide) (by decide) (by decide)
    (by norm_num) rfl (by decide) (by decide) (by norm_num)
  have hR := C5_passing_percentage_classification c5Df "team" c5GroupR
    150 350 c5Ds2 c4Roster "KC" c5ExtRowTerm 400 100 rfl rfl (by decide)
    (by decide) (by decide) (by decide) (by decide) (by decide) (by decide)
    (by norm_num) rfl (by decide) (by decide) (by norm_num)
  have hB := C5_passing_percentage_classification c5Df "team" c5GroupB
    250 250 c5Ds2 c4Roster "KC" c5ExtRowTerm 400 100 rfl rfl (by decide)
    (by decide) (by decide) (by decide) (by decide) (by decide) (by decide)
    (by norm_num) rfl (by decide) (by decide) (by norm_num)
  have eP : (400 : ℚ) / (400 + 100) * 100 = 80 := by norm_num
  have eR : (150 : ℚ) / (150 + 350) * 100 = 30 := by norm_num
  have eB : (250 : ℚ) / (250 + 250) * 100 = 50 := by norm_num
  refine ⟨?_, ?_, ?_, ?_, ?_, ?_, ?_, ?_⟩
  · have h2 := hP.2.1
    rw [eP] at h2
    exact h2
  · have h2 := hP.2.2.1
    rw [eP, if_pos (by norm_num : (60:ℚ) < 80)] at h2
    exact h2
  · have h2 := hR.2.1
    rw [eR] at h2
    exact h2
  · have h2 := hR.2.2.1
    rw [eR, if_neg (by norm_num : ¬((60:ℚ) < 30)),
      if_pos (by norm_num : (30:ℚ) < 40)] at h2
    exact h2
  · have h2 := hB.2.1
    rw [eB] at h2
    exact h2
  · have h2 := hB.2.2.1
    rw [eB, if_neg (by norm_num : ¬((60:ℚ) < 50)),
      if_neg (by norm_num : ¬((50:ℚ) < 40))] at h2
    exact h2
  · have h2 := hP.2.2.2.1
    rw [eP] at h2
    exact h2
  · have h2 := hP.2.2.2.2
    rw [eP, if_pos (by norm_num : (60:ℚ) < 80)] at h2
    exact h2

/-- A team with 3 receptions on 4 targets, through the API variant. -/
def c7Df : Table :=
  ⟨["team", "position", "receptions", "targets"],
   [[("team", .strc (.txt "KC")), ("position", .strc (.txt "WR")),
     ("receptions", .numc (.fin 3)), ("targets", .numc (.fin 4))]]⟩

/-- Claim C7 counterexample: `main.py` computes
`catch_rate = np.where(targets > 0, receptions / targets, 0.0)` with no
`× 100`: 3 receptions on 4 targets give `0.75`, not the percentage `75`
the claim requires for every Team Rollup variant. -/
theorem C7_counterexample :
    (calculate_team_analytics c7Df).toOption.map
        (fun rows => rows.map (fun r => Row.get r "catch_rate")) =
      some [some (.numc (.fin (mkRat 3 4)))] ∧
    mkRat 3 4 = (3 : ℚ) / 4 ∧
    (3 : ℚ) / 4 ≠ (3 : ℚ) / 4 * 100 ∧
    (3 : ℚ) / 4 * 100 = 75 := by
  refine ⟨by decide, ?_, by norm_num, by norm_num⟩
  rw [Rat.mkRat_eq_div]
  norm_num

/-- The `catch_rate` cell of one of `main.py`'s team rows. -/
lemma mainTeamRow_get_catch (df : Table) (tc : ColName)
    (g : List (Option Cell) × List Row)
    (htc : tc = "team" ∨ tc = "recent_team")
    (hrc : "receptions" ∈ df.cols) (htv : "targets" ∈ df.cols) :
    Row.get (mainTeamRow df tc g) "catch_rate" =
      some (.numc (if (skipSum (colVals g.2 "targets")).gt 0
        then (skipSum (colVals g.2 "receptions")).div
          (skipSum (colVals g.2 "targets"))
        else .fin 0)) := by
  have hrc' : "receptions" ∈ mainStatColsOf df :=
    mainStatColsOf_mem df _ hrc (by decide)
  have htv' : "targets" ∈ mainStatColsOf df :=
    mainStatColsOf_mem df _ htv (by decide)
  have htc1 : tc ≠ "catch_rate" := by
    rcases htc with rfl | rfl <;> decide
  simp only [mainTeamRow]
  simp only [List.append_assoc]
  rw [Row.get_append_of_not_mem _ _ _ (fun p hp => by
    simp only [List.mem_singleton] at hp
    rw [hp]
    exact htc1)]
  rw [Row.get_append_of_not_mem _ _ _ (fun p hp =>
    ne_of_mem_of_not_mem
      (mainStatColsOf_sub df _ (fst_mem_of_mem_map_pair _ _ p hp))
      (by decide))]
  rw [Row.get_append_of_not_mem _ _ _ (fun p hp => by
    have h2 := mem_ite_nil hp
    simp only [List.mem_singleton] at h2
    rw [h2]
    simp)]
  rw [if_pos ⟨hrc', htv'⟩, List.singleton_append]
  exact Row.get_cons_self _ _ _

/-- The `catch_rate` cell of one of the extractor's team records. -/
lemma extTeamRow_get_catch (ds2 rosters : Table) (t : String) (row : Row)
    (h : extTeamRow ds2 rosters t = .ok row) :
    Row.get row "catch_rate" =
      some (.numc (if (extStatSum ds2.cols (teamRowsOf ds2 t) "targets").gt 0
        then ((extStatSum ds2.cols (teamRowsOf ds2 t) "receptions").div
          (extStatSum ds2.cols (teamRowsOf ds2 t) "targets")).mul100
        else .fin 0)) := by
  rw [extTeamRow_ok _ _ _ _ h, List.append_assoc]
  simp only [extHeadRow, List.cons_append]
  rw [Row.get_cons_ne _ _ _ _ (by decide), Row.get_cons_ne _ _ _ _ (by decide),
    Row.get_cons_ne _ _ _ _ (by decide), Row.get_cons_ne _ _ _ _ (by decide),
    Row.get_cons_ne _ _ _ _ (by decide), Row.get_cons_ne _ _ _ _ (by decide),
    Row.get_cons_ne _ _ _ _ (by decide), Row.get_cons_ne _ _ _ _ (by decide),
    Row.get_cons_ne _ _ _ _ (by decide), Row.get_cons_ne _ _ _ _ (by decide),
    Row.get_cons_ne _ _ _ _ (by decide), Row.get_cons_ne _ _ _ _ (by decide),
    Row.get_cons_ne _ _ _ _ (by decide), Row.get_cons_ne _ _ _ _ (by decide)]
  exact Row.get_cons_self _ _ _

/-- Claim C7 (amended): where both receptions and targets are available,
the extractor's Team Rollup computes catch rate as the percentage
`(receptions / targets) × 100` when team targets are positive and `0.0`
when they are zero; the API variant computes the plain fraction
`receptions / targets` (no `× 100`) when targets are positive and `0.0`
when they are zero. -/
theorem C7_catch_rate_amended
    (df : Table) (tc : ColName) (g : List (Option Cell) × List Row)
    (rc tv : ℚ) (ds2 rosters : Table) (t : String) (row : Row) (erc etv : ℚ)
    (h0 : df.rows.isEmpty = false) (h1 : mainTeamCol df = some tc)
    (h2 : mainStatColsOf df ≠ []) (h3 : "position" ∈ df.cols)
    (hrc : "receptions" ∈ df.cols) (htv : "targets" ∈ df.cols)
    (hg : g ∈ groupBy [tc] df.rows)
    (hsr : skipSum (colVals g.2 "receptions") = .fin rc)
    (hst : skipSum (colVals g.2 "targets") = .fin tv)
    (he : extTeamRow ds2 rosters t = .ok row)
    (heR : extStatSum ds2.cols (teamRowsOf ds2 t) "receptions" = .fin erc)
    (heT : extStatSum ds2.cols (teamRowsOf ds2 t) "targets" = .fin etv) :
    (∃ out, calculate_team_analytics df = Except.ok out ∧
        sanitizeRow (mainTeamRow df tc g) ∈ out) ∧
    (0 < tv → Row.get (sanitizeRow (mainTeamRow df tc g)) "catch_rate" =
        some (.numc (.fin (rc / tv)))) ∧
    (tv = 0 → Row.get (sanitizeRow (mainTeamRow df tc g)) "catch_rate" =
        some (.numc (.fin 0))) ∧
    (0 < etv → Row.get row "catch_rate" =
        some (.numc (.fin (erc / etv * 100)))) ∧
    (etv = 0 → Row.get row "catch_rate" = some (.numc (.fin 0))) := by
  have hmain := mainTeamRow_get_catch df tc g (mainTeamCol_cases df tc h1)
    hrc htv
  have hext := extTeamRow_get_catch ds2 rosters t row he
  rw [hsr, hst] at hmain
  rw [heR, heT] at hext
  refine ⟨⟨_, mainTA_shape df tc h0 h1 h2 h3, List.mem_map_of_mem _ hg⟩,
    ?_, ?_, ?_, ?_⟩
  · intro hpos
    rw [sanitizeRow_get, hmain, if_pos ((NVal_gt_fin tv 0).mpr hpos),
      NVal_div_fin rc tv (ne_of_gt hpos)]
    rfl
  · intro hzero
    subst hzero
    rw [sanitizeRow_get, hmain,
      if_neg (show ¬((NVal.fin 0).gt 0 = true) by decide)]
    rfl
  · intro hpos
    rw [hext, if_pos ((NVal_gt_fin etv 0).mpr hpos),
      NVal_div_fin erc etv (ne_of_gt hpos), NVal_mul100_fin]
  · intro hzero
    subst hzero
    rw [hext, if_neg (show ¬((NVal.fin 0).gt 0 = true) by decide)]

def c7Group : List (Option Cell) × List Row :=
  ([some (.strc (.txt "KC"))], c7Df.rows)

/-- A team with zero receptions and zero targets, API variant. -/
def c7DfZ : Table :=
  ⟨["team", "position", "receptions", "targets"],
   [[("team", .strc (.txt "SF")), ("position", .strc (.txt "RB")),
     ("receptions", .numc (.fin 0)), ("targets", .numc (.fin 0))]]⟩

def c7GroupZ : List (Option Cell) × List Row :=
  ([some (.strc (.txt "SF"))], c7DfZ.rows)

/-- An aggregated 3-reception/4-target row, for the extractor. -/
def c7ExtAgg : Table :=
  ⟨["player_id", "receptions", "targets"],
   [[("player_id", .strc (.txt "P1")), ("receptions", .numc (.fin 3)),
     ("targets", .numc (.fin 4))]]⟩

def c7Ds2 : Table := withTeam c7ExtAgg (playerTeams c4Roster "team")

def c7ExtRowTerm : Row :=
  extHeadRow "KC" (extStatSum c7Ds2.cols (teamRowsOf c7Ds2 "KC"))
      (extPosSum c7Ds2.cols (teamRowsOf c7Ds2 "KC") (extPP c4Roster "KC"))
    ++ extRzRow c7Ds2.cols (teamRowsOf c7Ds2 "KC")
    ++ extIdRow (extStatSum c7Ds2.cols (teamRowsOf c7Ds2 "KC"))

/-- Witness for the amended C7: 3 receptions on 4 targets give catch rate
`0.75` in the API variant and `75.0` in the extractor; zero targets give
`0.0` in both. -/
theorem C7_catch_rate_amended_witness :
    Row.get (sanitizeRow (mainTeamRow c7Df "team" c7Group)) "catch_rate" =
      some (.numc (.fin ((3 : ℚ) / 4))) ∧
    Row.get c7ExtRowTerm "catch_rate" =
      some (.numc (.fin ((3 : ℚ) / 4 * 100))) ∧
    (3 : ℚ) / 4 * 100 = 75 ∧
    Row.get (sanitizeRow (mainTeamRow c7DfZ "team" c7GroupZ)) "catch_rate" =
      some (.numc (.fin 0)) ∧
    Row.get c5ExtRowTerm "catch_rate" = some (.numc (.fin 0)) := by
  have h1 := C7_catch_rate_amended c7Df "team" c7Group 3 4 c7Ds2 c4Roster
    "KC" c7ExtRowTerm 3 4 rfl rfl (by decide) (by decide) (by decide)
    (by decide) (by decide) (by decide) (by decide) rfl (by decide)
    (by decide)
  have h2 := C7_catch_rate_amended c7DfZ "team" c7GroupZ 0 0 c5Ds2 c4Roster
    "KC" c5ExtRowTerm 0 0 rfl rfl (by decide) (by decide) (by decide)
    (by decide) (by decide) (by decide) (by decide) rfl (by decide)
    (by decide)
  exact ⟨h1.2.1 (by norm_num), h1.2.2.2.1 (by norm_num), by norm_num,
    h2.2.2.1 rfl, h2.2.2.2.2 rfl⟩

section C8Lemmas

lemma Row.get_set_self (r : Row) (c : ColName) (v : Cell) :
    Row.get (Row.set r c v) c = (Row.get r c).map (fun _ => v) := by
  induction r with
  | nil => rfl
  | cons a t ih =>
    by_cases h : a.1 = c
    · simp [Row.set, Row.get, List.find?, h]
    · simp only [Row.set, List.map_cons, if_neg h] at ih ⊢
      simp [Row.get, List.find?, h] at ih ⊢
      exact ih

lemma lookupSV_mem (m : List (String × SVal)) (k : String) (v : SVal)
    (h : lookupSV m k = some v) : v ∈ m.map (fun p => p.2) := by
  unfold lookupSV at h
  cases hf : m.find? (fun p => p.1 = k) with
  | none => rw [hf] at h; simp at h
  | some pr =>
    rw [hf] at h
    rw [show Option.map (fun p : String × SVal => p.2) (some pr) = some pr.2
      from rfl] at h
    injection h with h1
    rw [← h1]
    exact List.mem_map_of_mem _ (List.mem_of_find?_eq_some hf)

lemma mappedTeamCell_txt (m : List (String × SVal)) (r : Row) (t : String)
    (h : mappedTeamCell m r = .strc (.txt t)) :
    SVal.txt t ∈ m.map (fun p => p.2) := by
  unfold mappedTeamCell at h
  cases hpid : Row.get r "player_id" with
  | none =>
    rw [hpid] at h
    exact absurd (show Cell.strc SVal.na = Cell.strc (.txt t) from h) (by simp)
  | some cell =>
    rw [hpid] at h
    match cell, h with
    | .strc (.txt pid), h =>
      have h' : (match lookupSV m pid with
          | some sv => Cell.strc sv
          | none => Cell.strc SVal.na) = Cell.strc (.txt t) := h
      cases hlk : lookupSV m pid with
      | none =>
        rw [hlk] at h'
        exact absurd h' (by simp)
      | some sv =>
        rw [hlk] at h'
        injection h' with h1
        exact h1 ▸ lookupSV_mem m pid sv hlk
    | .strc .na, h =>
      exact absurd (show Cell.strc SVal.na = Cell.strc (.txt t) from h) (by simp)
    | .strc .zeroFill, h =>
      exact absurd (show Cell.strc SVal.na = Cell.strc (.txt t) from h) (by simp)
    | .numc v, h =>
      exact absurd (show Cell.strc SVal.na = Cell.strc (.txt t) from h) (by simp)

/-- Any `team` cell of the mapped data source is the mapped cell of some
original row (the `withTeam` overwrite leaves no other `team` value). -/
lemma withTeam_team_cell (ds : Table) (m : List (String × SVal)) (r2 : Row)
    (hwf : ∀ r ∈ ds.rows, ∀ p ∈ r, p.1 ∈ ds.cols)
    (hr2 : r2 ∈ (withTeam ds m).rows) (c : Cell)
    (hc : Row.get r2 "team" = some c) :
    ∃ r ∈ ds.rows, c = mappedTeamCell m r := by
  unfold withTeam at hr2
  by_cases hteam : "team" ∈ ds.cols
  · rw [if_pos hteam] at hr2
    obtain ⟨r, hr, rfl⟩ := List.mem_map.mp hr2
    refine ⟨r, hr, ?_⟩
    rw [Row.get_set_self] at hc
    cases hg : Row.get r "team" with
    | none => rw [hg] at hc; simp at hc
    | some c0 =>
      rw [hg] at hc
      rw [show Option.map (fun _ : Cell => mappedTeamCell m r) (some c0) =
        some (mappedTeamCell m r) from rfl] at hc
      injection hc with h1
      exact h1.symm
  · rw [if_neg hteam] at hr2
    obtain ⟨r, hr, rfl⟩ := List.mem_map.mp hr2
    refine ⟨r, hr, ?_⟩
    rw [Row.get_append_of_not_mem _ _ _ (fun p hp => by
      intro he
      exact hteam (he ▸ hwf r hr p hp))] at hc
    rw [Row.get_cons_self] at hc
    injection hc with h1
    exact h1.symm

end C8Lemmas

/-- Claim C8: every team row emitted by the extractor's Team Rollup
carries a non-null, non-empty team identifier that is a value of the
roster-derived `player_id → team` mapping; a data row whose team cell is
the missing value — which is what `map(player_teams)` assigns to every
row whose `player_id` has no mapping entry — belongs to no team's row
set, so it contributes to no team's sums, sub-totals, or ratios. -/
theorem C8_team_resolution (weekly seasonal rosters aggregated : Table)
    (tc : ColName) (out : List Row)
    (h0w : weekly.rows.isEmpty = false)
    (h0r : rosters.rows.isEmpty = false)
    (h1 : extTeamColOf rosters = some tc)
    (h2 : "player_id" ∈ rosters.cols)
    (h3 : "player_id" ∈ (extDataSource weekly seasonal aggregated).cols)
    (hwf : ∀ r ∈ (extDataSource weekly seasonal aggregated).rows,
        ∀ p ∈ r, p.1 ∈ (extDataSource weekly seasonal aggregated).cols)
    (hok : calculate_team_analytics_ext weekly seasonal rosters aggregated =
      .ok out) :
    (∀ row ∈ out, ∃ t : String,
        Row.get row "team" = some (.strc (.txt t)) ∧ t ≠ "" ∧
        SVal.txt t ∈ (playerTeams rosters tc).map (fun p => p.2)) ∧
    (∀ r2 : Row, ∀ t : String,
        Row.get r2 "team" = some (Cell.strc SVal.na) →
        r2 ∉ teamRowsOf (withTeam (extDataSource weekly seasonal aggregated)
          (playerTeams rosters tc)) t) ∧
    (∀ r : Row, ∀ pid : String,
        Row.get r "player_id" = some (.strc (.txt pid)) →
        lookupSV (playerTeams rosters tc) pid = none →
        mappedTeamCell (playerTeams rosters tc) r = Cell.strc SVal.na) := by
  rw [extTA_shape weekly seasonal rosters aggregated tc h0w h0r h1 h2 h3]
    at hok
  refine ⟨?_, ?_, ?_⟩
  · intro row hrow
    obtain ⟨t, ht, hrowt⟩ := mapExcept_mem_of_ok _ _ _ hok row hrow
    refine ⟨t, ?_, ?_, ?_⟩
    · rw [extTeamRow_ok _ _ _ _ hrowt]
      simp only [extHeadRow, List.cons_append]
      exact Row.get_cons_self _ _ _
    · unfold extTeams at ht
      have h4 := (List.mem_filter.mp ht).2
      simpa using h4
    · unfold extTeams at ht
      have ht2 := (List.mem_filter.mp ht).1
      have ht3 := mem_uniqFirstAux _ _ _ ht2
      obtain ⟨r2, hr2, hcell⟩ := List.mem_filterMap.mp ht3
      have hteam : Row.get r2 "team" = some (.strc (.txt t)) := by
        cases hg : Row.get r2 "team" with
        | none => rw [hg] at hcell; simp at hcell
        | some c =>
          rw [hg] at hcell
          match c, hcell with
          | .strc (.txt t0), hcell =>
            have h5 : some t0 = some t := hcell
            injection h5 with h6
            rw [h6]
          | .strc .na, hcell =>
            exact absurd (show (none : Option String) = some t from hcell)
              (by simp)
          | .strc .zeroFill, hcell =>
            exact absurd (show (none : Option String) = some t from hcell)
              (by simp)
          | .numc v, hcell =>
            exact absurd (show (none : Option String) = some t from hcell)
              (by simp)
      obtain ⟨r, _, hmc⟩ := withTeam_team_cell _ _ r2 hwf hr2 _ hteam
      exact mappedTeamCell_txt _ r t hmc.symm
  · intro r2 t hna hmem
    have h5 := (List.mem_filter.mp hmem).2
    simp only [decide_eq_true_eq] at h5
    rw [hna] at h5
    injection h5 with h6
    exact absurd h6 (by simp)
  · intro r pid hpid hnone
    simp only [mappedTeamCell, hpid, hnone]

def c8Weekly : Table := ⟨["player_id"], [[("player_id", .strc (.txt "P1"))]]⟩

/-- An aggregated table with one roster-mapped player (`P1`) and one
player with no roster entry (`P9`). -/
def c8Agg : Table :=
  ⟨["player_id", "fantasy_points"],
   [[("player_id", .strc (.txt "P1")), ("fantasy_points", .numc (.fin 10))],
    [("player_id", .strc (.txt "P9")), ("fantasy_points", .numc (.fin 99))]]⟩

def c8Ds2 : Table := withTeam c8Agg (playerTeams c4Roster "team")

def c8Row : Row :=
  extHeadRow "KC" (extStatSum c8Ds2.cols (teamRowsOf c8Ds2 "KC"))
      (extPosSum c8Ds2.cols (teamRowsOf c8Ds2 "KC") (extPP c4Roster "KC"))
    ++ extRzRow c8Ds2.cols (teamRowsOf c8Ds2 "KC")
    ++ extIdRow (extStatSum c8Ds2.cols (teamRowsOf c8Ds2 "KC"))

def c8P9Row : Row :=
  [("player_id", .strc (.txt "P9")), ("fantasy_points", .numc (.fin 99))]

/-- The unmapped player's row after the team overwrite: its team cell is
the missing value. -/
def c8NaRow : Row := c8P9Row ++ [("team", .strc .na)]

/-- Witness for C8 at a table with one mapped and one unmapped player. -/
theorem C8_team_resolution_witness :
    (∃ t : String, Row.get c8Row "team" = some (.strc (.txt t)) ∧ t ≠ "" ∧
        SVal.txt t ∈ (playerTeams c4Roster "team").map (fun p => p.2)) ∧
    c8NaRow ∉ teamRowsOf c8Ds2 "KC" ∧
    mappedTeamCell (playerTeams c4Roster "team") c8P9Row =
      Cell.strc SVal.na := by
  have h := C8_team_resolution c8Weekly emptyTable c4Roster c8Agg "team"
    [c8Row] rfl rfl (by decide) (by decide) (by decide) (by decide) rfl
  exact ⟨h.1 c8Row (List.mem_cons_self c8Row []),
    h.2.1 c8NaRow "KC" (by decide),
    h.2.2 c8P9Row "P9" (by decide) (by decide)⟩
